import Mathlib

/-!
A verification development for the automated grading pipeline
(task generation, dispatch, submission ingestion, check execution,
result notification).

The Python sources are shallowly embedded: pure computations become Lean
functions, the sqlite ledger becomes explicit list-of-rows state passed
through the operations, the network becomes an explicit oracle
(`Nat → outcome`, one outcome per attempt), and Python exceptions from
page/HTML primitives become `Except String` results.  Scores (Python
floats that only ever take values `0`, `0.5`, `1` and averages of `0/1`
lists in the embedded fragment) are represented as `Rat`.
Cryptographic hashes (`hashlib.md5`, `hashlib.sha256`) and the seeded
Mersenne-Twister generator are modelled as opaque function parameters:
no property of theirs beyond determinism and (for sha256) the hex output
alphabet is used, and those are the only properties the code relies on.
Log statements are not modelled.
-/

namespace Pipeline

/-- Python `needle in hay` on strings, computed on the character lists.
`containsSub hay needle = true` iff `needle` occurs contiguously in `hay`. -/
def containsSub (hay needle : List Char) : Bool :=
  match hay with
  | [] => needle.isEmpty
  | _ :: t => needle.isPrefixOf hay || containsSub t needle

/-- Python `needle in hay` for `String`s. -/
def pyIn (needle hay : String) : Bool :=
  containsSub hay.toList needle.toList

/-- Python single-quote character, used when rendering `repr` of strings. -/
def sq : String := String.singleton (Char.ofNat 39)

/-- Python `repr` of a `str` (as used inside `str(list)` renderings);
we render the common case: the string wrapped in single quotes. -/
def pyRepr (s : String) : String := sq ++ s ++ sq

/-- Python `str(list_of_strings)`, e.g. `['C', 'Clear', 'AC']`. -/
def pyReprList (l : List String) : String :=
  "[" ++ String.intercalate ", " (l.map pyRepr) ++ "]"

/-!
## Check descriptors — `evaluate.py`

A Check descriptor is a Python dict `{'type': ..., ...params}`.  We embed
it as a structure holding the keys the Check Execution Engine ever reads
(`type`, `selector`, `min_count`, `text`, `result`, `breakpoints`),
with the defaults the engine's `check.get(key, default)` calls supply.
Keys of check types the engine does not recognise (`'buttons'`, `'key'`,
`'keys'`, `'action'`, `'filter'`, `'expression'`, …) are never read by any
embedded code path and are omitted from the structure.
-/

/-- One Check descriptor (`{'type': ..., ...}` dict in `task_templates.py` /
`evaluate.py`).  Field defaults mirror the `check.get(key, default)`
defaults used at the single place each key is read. -/
structure Check where
  «type» : String
  selector : String := ""
  min_count : Nat := 1
  text : List String := []
  result : String := ""
  breakpoints : List Nat := [768, 1024]
  deriving Repr, DecidableEq

/-- The result dict produced for one check
(`RepositoryEvaluator._create_result`, restricted to the fields that vary
per check: `check`, `score`, `reason`, `logs`.  The submission-identity
fields `email`/`task`/`round`/`repo_url`/`commit_sha`/`pages_url` and the
wall-clock `timestamp` are copied verbatim from the repo row and are
carried by the ledger embedding instead). -/
structure CheckResult where
  check : String
  score : Rat
  reason : String
  logs : String := ""
  deriving Repr, DecidableEq

/-!
## Interactive (Playwright) backend — `evaluate.py`

The live page is an oracle: each Playwright primitive the checks use
either returns a value or raises (`Except.error e` with the exception
text `e`).
-/

/-- The interactive backend's view of the loaded page.  Each field models
one Playwright primitive used by `_check_*`:
* `query_selector_all sel` — number of elements matching `sel`;
* `query_selector sel` — whether some element matches `sel`;
* `click sel` — clicking the element found for `sel` (plus the 500 ms wait);
* `modal_query` — `query_selector('.modal, .lightbox, [data-lightbox], [role="dialog"]')`
  followed by `is_visible()`: `none` if no such element, `some b` with its
  visibility otherwise;
* `body_probe w` — `set_viewport_size {width := w}`, the 500 ms wait, then
  `query_selector('body')` and its `bounding_box()`: `none` if no body
  element, `some width` with the box width otherwise (a missing box is
  reported as width `0`, which scores the same as Python's
  `if box and box['width'] > 0`). -/
structure Page where
  query_selector_all : String → Except String Nat
  query_selector : String → Except String Bool
  click : String → Except String Unit
  modal_query : Except String (Option Bool)
  body_probe : Nat → Except String (Option Rat)

/-- `RepositoryEvaluator._check_element_exists`. -/
def checkElementExists (page : Page) (check : Check) : CheckResult :=
  let selector := check.selector
  let min_count := check.min_count
  match page.query_selector_all selector with
  | .ok count =>
    if count ≥ min_count then
      { check := "element_" ++ selector.take 20, score := 1,
        reason := "Found " ++ toString count ++ " elements (expected >=" ++
          toString min_count ++ ")" }
    else
      { check := "element_" ++ selector.take 20, score := 0,
        reason := "Found " ++ toString count ++ " elements (expected >=" ++
          toString min_count ++ ")" }
  | .error e =>
    { check := "element_" ++ selector.take 20, score := 0, reason := "Error: " ++ e }

/-- The selector `_check_button_exists` builds for one text option. -/
def buttonSelector (text : String) : String :=
  "button:has-text(\"" ++ text ++ "\"), [type=\"button\"]:has-text(\"" ++ text ++ "\")"

/-- The `for text in text_options` loop of
`RepositoryEvaluator._check_button_exists`; an exception anywhere in the
loop is caught by the method's `except` and becomes a 0-score result. -/
def checkButtonExistsLoop (page : Page) (all_options : List String) :
    List String → CheckResult
  | [] =>
    { check := "button_check", score := 0,
      reason := "No button found with text: " ++ pyReprList all_options }
  | text :: rest =>
    match page.query_selector (buttonSelector text) with
    | .ok true =>
      { check := "button_" ++ text.take 20, score := 1,
        reason := "Button with text \"" ++ text ++ "\" found" }
    | .ok false => checkButtonExistsLoop page all_options rest
    | .error e =>
      { check := "button_check", score := 0, reason := "Error: " ++ e }

/-- `RepositoryEvaluator._check_button_exists`.  (The Python accepts a
bare string for `'text'` and wraps it into a one-element list; the
embedding takes the already-normalised list.) -/
def checkButtonExists (page : Page) (check : Check) : CheckResult :=
  checkButtonExistsLoop page check.text check.text

/-- `RepositoryEvaluator._check_click_interaction`. -/
def checkClickInteraction (page : Page) (check : Check) : CheckResult :=
  let selector := check.selector
  let expected_result := check.result
  match page.query_selector selector with
  | .error e => { check := "click_interaction", score := 0, reason := "Error: " ++ e }
  | .ok false =>
    { check := "click_interaction", score := 0, reason := "Element not found: " ++ selector }
  | .ok true =>
    match page.click selector with
    | .error e => { check := "click_interaction", score := 0, reason := "Error: " ++ e }
    | .ok _ =>
      if pyIn "modal" expected_result.toLower then
        match page.modal_query with
        | .error e => { check := "click_interaction", score := 0, reason := "Error: " ++ e }
        | .ok (some true) =>
          { check := "click_interaction", score := 1,
            reason := "Modal/lightbox opened on click" }
        | .ok _ =>
          { check := "click_interaction", score := 1/2,
            reason := "Click registered but expected result unclear" }
      else
        { check := "click_interaction", score := 1/2,
          reason := "Click registered but expected result unclear" }

/-- The `for width in breakpoints` loop of
`RepositoryEvaluator._check_responsive`: collects the per-breakpoint
scores (a missing `body` element appends nothing), propagating the first
exception. -/
def responsiveScores (page : Page) : List Nat → Except String (List Rat)
  | [] => .ok []
  | width :: rest =>
    match page.body_probe width with
    | .error e => .error e
    | .ok none => responsiveScores page rest
    | .ok (some w) =>
      match responsiveScores page rest with
      | .error e => .error e
      | .ok scores => .ok ((if w > 0 then (1 : Rat) else 0) :: scores)

/-- `RepositoryEvaluator._check_responsive`. -/
def checkResponsive (page : Page) (check : Check) : CheckResult :=
  let breakpoints := check.breakpoints
  match responsiveScores page breakpoints with
  | .error e => { check := "responsive_design", score := 0, reason := "Error: " ++ e }
  | .ok scores =>
    let avg_score : Rat := if scores = [] then 0 else scores.sum / scores.length
    { check := "responsive_design", score := avg_score,
      reason := "Responsive at " ++
        toString (scores.filter (fun s => s > 0)).length ++ "/" ++
        toString breakpoints.length ++ " breakpoints" }

/-- `RepositoryEvaluator._run_single_check`: dispatch on `check['type']`;
an unknown type logs a warning and returns `None` (no Result).  Each
`_check_*` method catches its own exceptions internally, so the method's
outer `except` is unreachable and the dispatch itself is total. -/
def runSingleCheck (page : Page) (check : Check) : Option CheckResult :=
  if check.«type» = "element_exists" then some (checkElementExists page check)
  else if check.«type» = "button_exists" then some (checkButtonExists page check)
  else if check.«type» = "click_interaction" then some (checkClickInteraction page check)
  else if check.«type» = "responsive_check" then some (checkResponsive page check)
  else none

/-- The `for check in checks` loop of
`RepositoryEvaluator.run_playwright_checks` after a successful
`page.goto` (`if result: results.append(result)`). -/
def runChecks (page : Page) (checks : List Check) : List CheckResult :=
  checks.filterMap (runSingleCheck page)

/-- `RepositoryEvaluator.run_playwright_checks`, interactive path:
`gotoRes` is the outcome of `page.goto(pages_url, ...)`; a page-load
failure (timeout or other exception) short-circuits with a single
`page_load` failure Result. -/
def runPlaywrightChecks (gotoRes : Except String Unit) (page : Page)
    (checks : List Check) : List CheckResult :=
  match gotoRes with
  | .error e => [{ check := "page_load", score := 0, reason := "Page failed to load: " ++ e }]
  | .ok _ => runChecks page checks

/-!
## Static (HTTP + BeautifulSoup) backend — `evaluate.py`
-/

/-- The static backend's view of the fetched HTML:
* `select_count sel` — `len(soup.select(sel))`;
* `buttons` — the `get_text()` of every `button`/`input` element, in
  document order (`soup.find_all(['button', 'input'])`). -/
structure Soup where
  select_count : String → Except String Nat
  buttons : Except String (List String)

/-- `RepositoryEvaluator._http_run_single_check`: each supported branch
returns exactly one result; checks that would need script execution
(`responsive_check`, `click_interaction`) resolve to the fixed neutral
score `0.5`; unknown types return `None`.  An exception in a branch is
caught and becomes a 0-score `http_check_{type}` result. -/
def httpRunSingleCheck (soup : Soup) (check : Check) : Option CheckResult :=
  if check.«type» = "element_exists" then
    some (match soup.select_count check.selector with
      | .ok count =>
        if count ≥ check.min_count then
          { check := "element_" ++ check.selector.take 20, score := 1,
            reason := "Found " ++ toString count ++ " elements (expected >=" ++
              toString check.min_count ++ ")" }
        else
          { check := "element_" ++ check.selector.take 20, score := 0,
            reason := "Found " ++ toString count ++ " elements (expected >=" ++
              toString check.min_count ++ ")" }
      | .error e =>
        { check := "http_check_element_exists", score := 0, reason := "Error: " ++ e })
  else if check.«type» = "button_exists" then
    some (match soup.buttons with
      | .ok btns =>
        let found := check.text.any (fun text =>
          btns.any (fun b_text => pyIn text.toLower b_text.toLower))
        if found then
          { check := "button_check", score := 1,
            reason := "Button with text " ++ pyReprList check.text ++ " found" }
        else
          { check := "button_check", score := 0,
            reason := "No button found with text: " ++ pyReprList check.text }
      | .error e =>
        { check := "http_check_button_exists", score := 0, reason := "Error: " ++ e })
  else if check.«type» = "responsive_check" then
    some { check := "responsive_design", score := 1/2,
           reason := "Responsive check skipped (HTTP fallback)" }
  else if check.«type» = "click_interaction" then
    some { check := "click_interaction", score := 1/2,
           reason := "Click interaction skipped (no JS in HTTP fallback)" }
  else none

/-- The `for check in checks` loop of
`RepositoryEvaluator._http_fallback_checks` after a successful fetch. -/
def httpRunChecks (soup : Soup) (checks : List Check) : List CheckResult :=
  checks.filterMap (httpRunSingleCheck soup)

/-- `RepositoryEvaluator._http_fallback_checks`: `fetchRes` is the outcome
of `requests.get(pages_url)` (status code and parsed soup). -/
def httpFallbackChecks (fetchRes : Except String (Nat × Soup))
    (checks : List Check) : List CheckResult :=
  match fetchRes with
  | .error e => [{ check := "http_fallback", score := 0, reason := "Error: " ++ e }]
  | .ok (status, soup) =>
    if status ≠ 200 then
      [{ check := "page_load", score := 0, reason := "HTTP " ++ toString status }]
    else
      httpRunChecks soup checks

/-- The check types `_run_single_check` / `_http_run_single_check`
recognise (derived predicate, used only to state theorems). -/
def supportedCheckType (t : String) : Bool :=
  t = "element_exists" || t = "button_exists" ||
  t = "click_interaction" || t = "responsive_check"

/-!
## Result Notifier — `evaluator.py`

`EvaluationNotifier.notify` POSTs a fixed payload and retries with
exponential backoff.  The network is an oracle `Nat → NetOutcome` giving
the outcome of the POST made on each attempt index; the five `except`
arms of the Python are the five non-`status` constructors.
-/

/-- Outcome of one `requests.post` in `EvaluationNotifier.notify`:
an HTTP response, or one of the exception classes the method catches. -/
inductive NetOutcome where
  | status (code : Nat) (text : String)
  | timeout
  | connError (msg : String)
  | reqError (msg : String)
  | unexpected (msg : String)
  deriving Repr, DecidableEq

/-- The result dict returned by `EvaluationNotifier.notify`. -/
structure NotifyResult where
  success : Bool
  status_code : Option Nat := none
  error : Option String := none
  attempts : Nat
  deriving Repr, DecidableEq

/-- `EvaluationNotifier.max_retries` (`= 7`). -/
def notifierMaxRetries : Nat := 7

/-- `EvaluationNotifier.base_delay` (`= 1` second). -/
def notifierBaseDelay : Nat := 1

/-- The `for attempt in range(self.max_retries + 1)` loop of
`EvaluationNotifier.notify`.  `attempt` is the current loop index, `left`
the number of iterations remaining; the returned list records every
`time.sleep` delay in order.  When the loop falls through (`left = 0`)
the method returns the final "Failed after all retry attempts" dict. -/
def notifyLoop (resp : Nat → NetOutcome) : Nat → Nat → NotifyResult × List Nat
  | _, 0 =>
    ({ success := false, error := some "Failed after all retry attempts",
       attempts := notifierMaxRetries + 1 }, [])
  | attempt, left + 1 =>
    let retry (final : NotifyResult) : NotifyResult × List Nat :=
      if attempt ≥ notifierMaxRetries then (final, [])
      else
        let delay := notifierBaseDelay * 2 ^ attempt
        let (r, ds) := notifyLoop resp (attempt + 1) left
        (r, delay :: ds)
    match resp attempt with
    | .status code text =>
      if code = 200 then
        ({ success := true, status_code := some 200, attempts := attempt + 1 }, [])
      else
        retry { success := false, status_code := some code,
                error := some ("HTTP " ++ toString code ++ ": " ++ text.take 200),
                attempts := attempt + 1 }
    | .timeout =>
      retry { success := false, error := some "Request timed out after all retries",
              attempts := attempt + 1 }
    | .connError e =>
      retry { success := false, error := some ("Connection error: " ++ e),
              attempts := attempt + 1 }
    | .reqError e =>
      retry { success := false, error := some e, attempts := attempt + 1 }
    | .unexpected e =>
      retry { success := false, error := some ("Unexpected error: " ++ e),
              attempts := attempt + 1 }

/-- `EvaluationNotifier.notify` (retry skeleton; the payload is a pure
record of the arguments and does not influence control flow). -/
def notify (resp : Nat → NetOutcome) : NotifyResult × List Nat :=
  notifyLoop resp 0 (notifierMaxRetries + 1)

/-- An endpoint that answers HTTP 500 to every POST. -/
def all500 : Nat → NetOutcome := fun _ => .status 500 ""

/-!
## Dispatch Engine — `round1.py` / `round2.py`

`post_task_to_student` retries a task POST up to `MAX_RETRIES` times with
the fixed `RETRY_DELAYS` schedule.  It catches `requests.exceptions.Timeout`
and `requests.exceptions.RequestException` (connection errors included);
those are the two non-`status` constructors.
-/

/-- Outcome of one `requests.post` in `post_task_to_student`. -/
inductive DispatchOutcome where
  | status (code : Nat) (text : String)
  | timeout
  | reqError (msg : String)
  deriving Repr, DecidableEq

/-- `MAX_RETRIES` in `round1.py` / `round2.py` (`= 3`). -/
def MAX_RETRIES : Nat := 3

/-- `RETRY_DELAYS` in `round1.py` / `round2.py` (`= [60, 180, 600]` seconds). -/
def RETRY_DELAYS : List Nat := [60, 180, 600]

/-- `REQUEST_TIMEOUT` in `round1.py` / `round2.py` (`= 300` seconds). -/
def REQUEST_TIMEOUT : Nat := 300

/-- Return value of the dispatch: `(status_code, error)` as in the Python
tuple, plus the number of POST attempts made and the list of `time.sleep`
delays taken, in order. -/
structure DispatchResult where
  status_code : Nat
  error : Option String
  attempts : Nat
  sleeps : List Nat
  deriving Repr, DecidableEq

/-- The `for attempt in range(MAX_RETRIES)` loop of
`post_task_to_student`.  On a non-final failed attempt the code sleeps
`RETRY_DELAYS[attempt]` and continues; on the final attempt it returns the
last HTTP status (or `0` for a timeout / request exception) with an error
string.  The fall-through after the loop returns `(0, "Failed after all
retries")`. -/
def postTaskLoop (resp : Nat → DispatchOutcome) : Nat → Nat → DispatchResult
  | attempt, 0 =>
    { status_code := 0, error := some "Failed after all retries",
      attempts := attempt, sleeps := [] }
  | attempt, left + 1 =>
    let retry (final : DispatchResult) : DispatchResult :=
      if attempt < MAX_RETRIES - 1 then
        let delay := RETRY_DELAYS.getD attempt 0
        let r := postTaskLoop resp (attempt + 1) left
        { r with sleeps := delay :: r.sleeps }
      else final
    match resp attempt with
    | .status code text =>
      if code = 200 then
        { status_code := 200, error := none, attempts := attempt + 1, sleeps := [] }
      else
        retry { status_code := code,
                error := some ("HTTP " ++ toString code ++ ": " ++ text.take 200),
                attempts := attempt + 1, sleeps := [] }
    | .timeout =>
      retry { status_code := 0,
              error := some ("Timeout after " ++ toString REQUEST_TIMEOUT ++ "s"),
              attempts := attempt + 1, sleeps := [] }
    | .reqError e =>
      retry { status_code := 0, error := some ("Request error: " ++ e),
              attempts := attempt + 1, sleeps := [] }

/-- `post_task_to_student` in `round1.py` (retry skeleton; the payload is
a pure record of the task fields and does not influence control flow). -/
def postTaskToStudent (resp : Nat → DispatchOutcome) : DispatchResult :=
  postTaskLoop resp 0 MAX_RETRIES

/-- `post_task_to_student` in `round2.py`: its body is textually identical
to the `round1.py` copy up to log messages, so it is embedded as the same
function. -/
def postTaskToStudentRound2 (resp : Nat → DispatchOutcome) : DispatchResult :=
  postTaskToStudent resp

/-!
## Persistent Ledger — `db.py`

The three sqlite tables become three lists of rows in insertion order
(`ORDER BY created_at` returns insertion order; `fetchone` of an indexed
lookup returns the first matching row).  Only the columns the claims'
code paths read are carried.
-/

/-- A row of the `tasks` table. -/
structure TaskRow where
  email : String
  task : String
  round : Nat
  nonce : String
  brief : String := ""
  evaluation_url : String := ""
  endpoint : String := ""
  secret : String := ""
  statuscode : Option Nat := none
  error : Option String := none
  deriving Repr, DecidableEq

/-- A row of the `repos` table. -/
structure RepoRow where
  email : String
  task : String
  round : Nat
  nonce : String
  repo_url : String
  commit_sha : String
  pages_url : String
  deriving Repr, DecidableEq

/-- A row of the `results` table (`score REAL` is nullable). -/
structure ResultRow where
  email : String
  task : String
  round : Nat
  check : String
  score : Option Rat
  reason : String := ""
  deriving Repr, DecidableEq

/-- The ledger state: the three tables, each in insertion order. -/
structure DB where
  tasks : List TaskRow := []
  repos : List RepoRow := []
  results : List ResultRow := []
  deriving Repr, DecidableEq

/-- `Database.task_exists` (`SELECT COUNT(*) FROM tasks WHERE email = ?
AND task = ? AND round = ?` compared with `> 0`). -/
def taskExists (db : DB) (email task : String) (round : Nat) : Bool :=
  db.tasks.any (fun t => t.email = email ∧ t.task = task ∧ t.round = round)

/-- `Database.repo_exists`. -/
def repoExists (db : DB) (email task : String) (round : Nat) : Bool :=
  db.repos.any (fun r => r.email = email ∧ r.task = task ∧ r.round = round)

/-- `Database.result_exists`. -/
def resultExists (db : DB) (email task : String) (round : Nat) : Bool :=
  db.results.any (fun r => r.email = email ∧ r.task = task ∧ r.round = round)

/-- `Database.get_task_by_nonce` (`SELECT * FROM tasks WHERE nonce = ?`,
first row or `None`). -/
def getTaskByNonce (db : DB) (nonce : String) : Option TaskRow :=
  db.tasks.find? (fun t => t.nonce = nonce)

/-- `Database.insert_repo`. -/
def insertRepo (db : DB) (row : RepoRow) : DB :=
  { db with repos := db.repos ++ [row] }

/-- `Database.insert_result`. -/
def insertResult (db : DB) (row : ResultRow) : DB :=
  { db with results := db.results ++ [row] }

/-- `Database.insert_task` (stores the dispatch outcome on the row). -/
def insertTask (db : DB) (row : TaskRow) : DB :=
  { db with tasks := db.tasks ++ [row] }

/-- `Database.get_results(email=..., round=...)`.  Python applies the email
filter only when `email` is truthy (`if email:`), i.e. non-empty, and the
round filter only when `round is not None`; rows come back in insertion
order. -/
def getResults (db : DB) (email : Option String) (round : Option Nat) :
    List ResultRow :=
  db.results.filter (fun r =>
    (match email with
     | some e => if e ≠ "" then decide (r.email = e) else true
     | none => true)
    && (match round with
        | some n => decide (r.round = n)
        | none => true))

/-!
## Submission ingestion — `api_server.py`, `evaluation_endpoint`

The endpoint's `HTTPException(400, detail)` raises become an explicit
`(status, detail)` response; the handler returns the possibly-updated
ledger alongside it.
-/

/-- The body of a POST to `/api/evaluation` (`EvaluationRequest`). -/
structure EvaluationRequest where
  email : String
  task : String
  round : Nat
  nonce : String
  repo_url : String
  commit_sha : String
  pages_url : String
  deriving Repr, DecidableEq

/-- The HTTP response of `evaluation_endpoint`: status code and
detail/message text. -/
structure EndpointResponse where
  status : Nat
  detail : String
  deriving Repr, DecidableEq

/-- `evaluation_endpoint` in `api_server.py`: resolve the nonce, check the
identity fields, reject duplicates, and only then insert the repo row. -/
def evaluationEndpoint (db : DB) (req : EvaluationRequest) :
    EndpointResponse × DB :=
  match getTaskByNonce db req.nonce with
  | none => ({ status := 400, detail := "Invalid nonce. Task not found." }, db)
  | some task =>
    if task.email ≠ req.email then
      ({ status := 400, detail := "Email does not match the task record." }, db)
    else if task.task ≠ req.task then
      ({ status := 400, detail := "Task ID does not match the task record." }, db)
    else if task.round ≠ req.round then
      ({ status := 400, detail := "Round number does not match the task record." }, db)
    else if repoExists db req.email req.task req.round then
      ({ status := 400,
         detail := "Repository has already been submitted for this task and round." }, db)
    else
      ({ status := 200, detail := "Repository submission recorded successfully" },
       insertRepo db
         { email := req.email, task := req.task, round := req.round,
           nonce := req.nonce, repo_url := req.repo_url,
           commit_sha := req.commit_sha, pages_url := req.pages_url })

/-!
## Evaluation main loop — `evaluate.py`, `main`

The evaluator itself (network-bound) is abstracted as a function from a
repo row to the result rows it would produce; the loop's idempotency
guard is what the claim is about.
-/

/-- The `for repo in repos` loop of `evaluate.main`: skip a repo as soon
as any result row exists for its `(email, task, round)`; otherwise insert
every result the evaluator produced.  (The per-repo `try/except` and the
evaluated/failed counters only feed logging and are not modelled.) -/
def evalMainLoop (evalRepo : RepoRow → List ResultRow) :
    List RepoRow → DB → DB
  | [], db => db
  | repo :: rest, db =>
    if resultExists db repo.email repo.task repo.round then
      evalMainLoop evalRepo rest db
    else
      evalMainLoop evalRepo rest ((evalRepo repo).foldl insertResult db)

/-!
## Round-2 eligibility — `round2.py`, `should_generate_round2`
-/

/-- The hardcoded `critical_checks` list in `should_generate_round2`. -/
def critical_checks : List String := ["mit_license", "page_load"]

/-- `should_generate_round2`: skip when a Round-2 task or repo already
exists; with no Round-1 results, generate anyway; otherwise block exactly
when some critical check scored `0` (the Python `result['score'] == 0`
is false for a NULL score). -/
def shouldGenerateRound2 (db : DB) (repo : RepoRow) : Bool :=
  if taskExists db repo.email repo.task 2 then false
  else if repoExists db repo.email repo.task 2 then false
  else
    let results := getResults db (some repo.email) (some 1)
    if results = [] then true
    else if results.any (fun r =>
        decide (r.check ∈ critical_checks) && decide (r.score = some 0)) then false
    else true

/-!
## Dispatch batch loop — `round1.py`, `process_submissions`

The task generator and the network are parameters (`gen` builds the task
row a submission leads to, already carrying the dispatch outcome applied
by `post`); the loop's fault isolation and persistence are what the claim
is about.
-/

/-- One input row of `submissions.csv`. -/
structure CsvSubmission where
  timestamp : String
  email : String
  endpoint : String
  secret : String
  deriving Repr, DecidableEq

/-- The `for submission in submissions` loop of `process_submissions`:
generate the task, skip if a task row already exists for
`(email, task_id, round)`, otherwise POST (outcome `post task`) and insert
the task row with `statuscode`/`error` set from the outcome.  (The
processed/skipped/failed counters only feed logging and are not
modelled.) -/
def processSubmissions (gen : CsvSubmission → TaskRow)
    (post : TaskRow → Nat × Option String) :
    List CsvSubmission → DB → DB
  | [], db => db
  | sub :: rest, db =>
    let task := gen sub
    if taskExists db task.email task.task task.round then
      processSubmissions gen post rest db
    else
      let (code, err) := post task
      processSubmissions gen post rest
        (insertTask db { task with statuscode := some code, error := err })

/-!
## Task Generator — `task_templates.py` / `round1.py`

`hashlib.md5`, `hashlib.sha256` and the seeded global `random` generator
are modelled as opaque components of a `GenEnv`: `seed s` is the
generator state after `random.seed(s)`, `next st` is one draw (the value
`random.choice` indexes with, together with the successor state).  Every
theorem below is universally quantified over the environment, so nothing
depends on the concrete hash or generator beyond their being functions.
Each embedded operation threads the global generator state explicitly;
an operation that begins with `random.seed(...)` ignores the incoming
state, exactly as the Python does.
-/

/-- Opaque model of `hashlib` and the seeded `random` module. -/
structure GenEnv where
  md5hex : String → String
  seed : String → Nat
  next : Nat → Nat × Nat
  sha256 : String → Nat

/-- `random.choice(l)`: one draw from the generator state, used as an
index into `l`.  (`getD` with a default only differs from Python on an
empty list, where Python raises; every list passed in the sources is a
non-empty constant.) -/
def pyChoice {α : Type} (env : GenEnv) (s : Nat) (l : List α) (dflt : α) : α × Nat :=
  let (v, s') := env.next s
  (l.getD (v % l.length) dflt, s')

/-- One attachment dict from the template catalog (`url` for linked
resources, `content` for inline ones; the catalog dicts always list
`name`, `type`, then `url` or `content`). -/
structure Attachment where
  name : String
  «type» : String
  url : Option String := none
  content : Option String := none
  deriving Repr, DecidableEq

/-- Python `str(dict)` rendering of an attachment, keys in insertion
order. -/
def Attachment.pyStr (a : Attachment) : String :=
  "\x7b" ++ pyRepr "name" ++ ": " ++ pyRepr a.name ++ ", " ++
    pyRepr "type" ++ ": " ++ pyRepr a.«type» ++
    (match a.url with
     | some u => ", " ++ pyRepr "url" ++ ": " ++ pyRepr u
     | none => "") ++
    (match a.content with
     | some c => ", " ++ pyRepr "content" ++ ": " ++ pyRepr c
     | none => "") ++ "\x7d"

/-- Python `str(attachments)` as used in `generate_task_id`. -/
def pyStrAttachments (l : List Attachment) : String :=
  "[" ++ String.intercalate ", " (l.map Attachment.pyStr) ++ "]"

/-- One round's configuration inside a template: the brief template
string, the `params` option sets (dict in insertion order; option values
already rendered with `str`, which is what `generate` substitutes), and
the verbatim attachments and checks. -/
structure RoundConfig where
  brief : String
  params : List (String × List String) := []
  attachments : List Attachment := []
  checks : List Check := []
  deriving Repr, DecidableEq

/-- `TaskTemplate` in `task_templates.py`. -/
structure TaskTemplate where
  id : String
  name : String
  round1 : RoundConfig
  round2 : RoundConfig
  deriving Repr, DecidableEq

/-- `TaskTemplate.generate`: re-seed the generator from
`md5(email ++ "-" ++ timestamp)`, pick one value per `params` token in
dict order, substitute into the brief; attachments and checks are copied
verbatim.  The incoming generator state is discarded by the re-seeding. -/
def TaskTemplate.generate (env : GenEnv) (t : TaskTemplate) (round : Nat)
    (email timestamp : String) (_rngIn : Nat) : (String × List Attachment × List Check) × Nat :=
  let seed := email ++ "-" ++ timestamp
  let s0 := env.seed (env.md5hex seed)
  let config := if round = 1 then t.round1 else t.round2
  let step := fun (acc : String × Nat) (kv : String × List String) =>
    let (value, s') := pyChoice env acc.2 kv.2 ""
    (acc.1.replace ("\x7b" ++ kv.1 ++ "\x7d") value, s')
  let (brief, s) := config.params.foldl step (config.brief, s0)
  ((brief, config.attachments, config.checks), s)

/-!
### The template catalog (`TEMPLATES` in `task_templates.py`)

Checks are carried with the keys the Check Execution Engine reads;
parameters of check types the engine does not recognise (`'buttons'`,
`'key'`, `'keys'`, `'action'`, `'filter'`, `'expression'`, `'query'`,
`'format'`, `'states'`, `'correct'`, `'wrong'`, `'min_categories'`,
`'levels'`) are never read by any embedded code and are omitted.  Two
catalog dicts (`storage_check` in todo-list round 1 and `chart_exists`
in weather-dashboard round 2) repeat the `'type'` key, so in Python the
second value wins; the embedding records the winning value.  `params`
option values are stored already `str`-rendered, which is the form
`generate` substitutes.
-/

/-- `TEMPLATES['image-viewer']`. -/
def imageViewerTemplate : TaskTemplate :=
  { id := "image-viewer", name := "Image Viewer",
    round1 :=
    { brief := "Create a simple image viewer web application with the following features:\n- Display \x7bnum_images\x7d images in a grid layout\n- Each image should be \x7bsize\x7dpx in size\n- Clicking an image should show it in a modal/lightbox view\n- Include next/previous buttons in the lightbox\n- Use the provided image attachments\n- Make it responsive and visually appealing\n- Background color: \x7bbg_color\x7d",
      params := [("num_images", ["3", "4", "5", "6"]),
                 ("size", ["150", "200", "250"]),
                 ("bg_color", ["#f0f0f0", "#ffffff", "#e8e8e8", "#fafafa"])],
      attachments :=
        [{ name := "image1.jpg", «type» := "image/jpeg",
           url := some "https://picsum.photos/400/300?random=1" },
         { name := "image2.jpg", «type» := "image/jpeg",
           url := some "https://picsum.photos/400/300?random=2" },
         { name := "image3.jpg", «type» := "image/jpeg",
           url := some "https://picsum.photos/400/300?random=3" },
         { name := "image4.jpg", «type» := "image/jpeg",
           url := some "https://picsum.photos/400/300?random=4" }],
      checks :=
        [{ «type» := "element_exists", selector := "img", min_count := 3 },
         { «type» := "element_exists", selector := ".modal, .lightbox, [data-lightbox]" },
         { «type» := "click_interaction", selector := "img", result := "modal_opens" },
         { «type» := "element_exists", selector := "button, .nav, .prev, .next" },
         { «type» := "responsive_check", breakpoints := [768, 1024] }] },
    round2 :=
    { brief := "Enhance your image viewer with these additional features:\n- Add support for SVG images\n- Implement zoom in/out functionality (buttons or mouse wheel)\n- Add pan/drag capability when zoomed in\n- Include a thumbnail strip at the bottom\n- Add keyboard navigation (arrow keys)\n- Add \x7banimation_type\x7d transition animations\n- Include an image counter (e.g., \"3 / 6\")",
      params := [("animation_type", ["fade", "slide", "zoom", "flip"])],
      attachments :=
        [{ name := "icon.svg", «type» := "image/svg+xml",
           content := some "<svg><circle cx=\"50\" cy=\"50\" r=\"40\" fill=\"blue\"/></svg>" }],
      checks :=
        [{ «type» := "element_exists", selector := "svg, [src$=\".svg\"]" },
         { «type» := "element_exists",
           selector := "[class*=\"zoom\"], button[title*=\"zoom\"]", min_count := 2 },
         { «type» := "element_exists", selector := ".thumbnails, [class*=\"thumb\"]" },
         { «type» := "element_exists", selector := ".counter, [class*=\"count\"]" },
         { «type» := "keyboard_event", result := "image_changes" },
         { «type» := "mouse_event", result := "zoom_changes" },
         { «type» := "animation_check", selector := ".modal img" }] } }

/-- `TEMPLATES['calculator']`. -/
def calculatorTemplate : TaskTemplate :=
  { id := "calculator", name := "Calculator",
    round1 :=
    { brief := "Create a calculator web application with:\n- Basic operations: addition, subtraction, multiplication, division\n- Display showing \x7bdisplay_digits\x7d digits\n- Number buttons (0-9) and operation buttons\n- Clear (C) and equals (=) buttons\n- \x7blayout\x7d button layout\n- Error handling for division by zero\n- Visual feedback on button clicks",
      params := [("display_digits", ["8", "10", "12"]),
                 ("layout", ["grid", "vertical", "compact"])],
      checks :=
        [{ «type» := "element_exists", selector := "button", min_count := 15 },
         { «type» := "element_exists", selector := "input[type=\"text\"], .display, #display" },
         { «type» := "click_sequence", result := "8" },
         { «type» := "click_sequence", result := "5" },
         { «type» := "click_sequence", result := "Error|Infinity|NaN" },
         { «type» := "button_exists", text := ["C", "Clear", "AC"] }] },
    round2 :=
    { brief := "Add advanced features to your calculator:\n- Scientific functions: sin, cos, tan, sqrt, power\n- Memory functions (M+, M-, MR, MC)\n- Calculation history showing last \x7bhistory_count\x7d calculations\n- Keyboard input support\n- \x7bfeature\x7d mode toggle\n- Percentage calculation\n- Parentheses support for complex expressions",
      params := [("history_count", ["5", "10", "15"]),
                 ("feature", ["dark", "scientific", "programmer"])],
      checks :=
        [{ «type» := "element_exists", selector := "button", min_count := 25 },
         { «type» := "button_exists", text := ["sin", "cos", "tan", "sqrt"] },
         { «type» := "button_exists", text := ["M+", "M-", "MR", "MC"] },
         { «type» := "element_exists", selector := ".history, [class*=\"history\"]" },
         { «type» := "keyboard_input", result := "6" },
         { «type» := "click_sequence", result := "0.5|50" },
         { «type» := "parentheses_check", result := "20" }] } }

/-- `TEMPLATES['todo-list']`. -/
def todoListTemplate : TaskTemplate :=
  { id := "todo-list", name := "Todo List",
    round1 :=
    { brief := "Create a todo list application with:\n- Input field to add new tasks\n- List displaying all tasks\n- Checkbox to mark tasks as complete\n- Delete button for each task\n- Show \x7bcounter_type\x7d counter\n- \x7bstorage\x7d storage to persist tasks\n- Completed tasks should have \x7bcompleted_style\x7d\n- Add button with visual feedback",
      params := [("counter_type", ["total", "remaining", "completed"]),
                 ("storage", ["localStorage", "sessionStorage"]),
                 ("completed_style", ["strikethrough", "gray color", "different opacity"])],
      checks :=
        [{ «type» := "element_exists", selector := "input[type=\"text\"], input[type=\"search\"]" },
         { «type» := "element_exists", selector := "button, [type=\"submit\"]" },
         { «type» := "element_exists", selector := "ul, ol, .todo-list" },
         { «type» := "add_todo", text := ["Test Task"], result := "task_appears" },
         { «type» := "checkbox_toggle", result := "style_changes" },
         { «type» := "delete_todo", result := "task_removed" },
         { «type» := "localStorage|sessionStorage" },
         { «type» := "element_exists", selector := ".counter, [class*=\"count\"]" }] },
    round2 :=
    { brief := "Enhance your todo list with:\n- Categories or tags for tasks (minimum \x7bnum_categories\x7d categories)\n- Filter buttons (All, Active, Completed)\n- Edit functionality for existing tasks\n- Due date picker for tasks\n- Priority levels (High, Medium, Low) with color coding\n- Search/filter functionality\n- Drag and drop to reorder tasks\n- Export to JSON functionality",
      params := [("num_categories", ["3", "4", "5"])],
      checks :=
        [{ «type» := "element_exists",
           selector := "select, [class*=\"category\"], [class*=\"tag\"]" },
         { «type» := "button_exists", text := ["All", "Active", "Completed"] },
         { «type» := "filter_check", result := "shows_only_completed" },
         { «type» := "element_exists", selector := "button[class*=\"edit\"], .edit-btn" },
         { «type» := "element_exists", selector := "input[type=\"date\"], .date-picker" },
         { «type» := "element_exists", selector := "[class*=\"priority\"], .high, .medium, .low" },
         { «type» := "search_functionality", result := "filters_tasks" },
         { «type» := "drag_drop_check", result := "order_changes" },
         { «type» := "export_check" }] } }

/-- `TEMPLATES['weather-dashboard']`. -/
def weatherDashboardTemplate : TaskTemplate :=
  { id := "weather-dashboard", name := "Weather Dashboard",
    round1 :=
    { brief := "Create a weather dashboard with:\n- Display current weather for \x7bdefault_city\x7d\n- Show temperature in \x7btemp_unit\x7d\n- Display weather condition icon/emoji\n- Show humidity and wind speed\n- \x7bnum_days\x7d-day forecast\n- Search box to change location\n- Responsive card-based layout\n- Use mock/sample data (no API required for now)",
      params := [("default_city", ["London", "New York", "Tokyo", "Paris"]),
                 ("temp_unit", ["Celsius", "Fahrenheit"]),
                 ("num_days", ["3", "5", "7"])],
      checks :=
        [{ «type» := "element_exists", selector := ".temperature, [class*=\"temp\"]" },
         { «type» := "element_exists", selector := ".humidity, [class*=\"humidity\"]" },
         { «type» := "element_exists", selector := ".wind, [class*=\"wind\"]" },
         { «type» := "element_exists", selector := "img, .icon, .emoji" },
         { «type» := "element_exists", selector := ".forecast, [class*=\"forecast\"]" },
         { «type» := "element_exists", selector := "input[type=\"text\"], input[type=\"search\"]" },
         { «type» := "forecast_count", min_count := 3 }] },
    round2 :=
    { brief := "Add these features to your weather dashboard:\n- Hourly forecast (next \x7bhourly_count\x7d hours)\n- Temperature chart/graph visualization\n- Unit toggle (Celsius ↔ Fahrenheit)\n- Save favorite locations (up to \x7bfav_count\x7d cities)\n- Display sunrise and sunset times\n- UV index indicator\n- \"Feels like\" temperature\n- Weather alerts section\n- Auto-detect user location (with permission)",
      params := [("hourly_count", ["12", "24"]),
                 ("fav_count", ["3", "5"])],
      checks :=
        [{ «type» := "element_exists", selector := ".hourly, [class*=\"hourly\"]" },
         { «type» := "line|bar|canvas" },
         { «type» := "toggle_exists" },
         { «type» := "element_exists", selector := ".favorites, [class*=\"favorite\"]" },
         { «type» := "element_exists", selector := ".sunrise, .sunset, [class*=\"sun\"]" },
         { «type» := "element_exists", selector := ".uv, [class*=\"uv-index\"]" },
         { «type» := "element_exists", selector := ".feels-like, [class*=\"feels\"]" },
         { «type» := "geolocation_check", result := "location_detected" }] } }

/-- `TEMPLATES['quiz-app']`. -/
def quizAppTemplate : TaskTemplate :=
  { id := "quiz-app", name := "Quiz Application",
    round1 :=
    { brief := "Create a quiz application with:\n- \x7bnum_questions\x7d multiple choice questions\n- \x7bchoices_per_question\x7d choices per question\n- \"Next\" button to proceed through questions\n- Display question number (e.g., \"Question 3 of 10\")\n- Show final score at the end\n- \"Restart Quiz\" button\n- Visual feedback for selected answer\n- \x7btheme\x7d color theme\n- Questions provided in attachments",
      params := [("num_questions", ["5", "10"]),
                 ("choices_per_question", ["4"]),
                 ("theme", ["blue", "green", "purple", "orange"])],
      attachments :=
        [{ name := "questions.json", «type» := "application/json",
           content := some "[\n                        \x7b\"question\": \"What is 2+2?\", \"choices\": [\"3\", \"4\", \"5\", \"6\"], \"correct\": 1\x7d,\n                        \x7b\"question\": \"Capital of France?\", \"choices\": [\"London\", \"Berlin\", \"Paris\", \"Rome\"], \"correct\": 2\x7d\n                    ]" }],
      checks :=
        [{ «type» := "element_exists", selector := ".question, [class*=\"question\"]" },
         { «type» := "element_exists",
           selector := "input[type=\"radio\"], button[class*=\"choice\"]", min_count := 4 },
         { «type» := "button_exists", text := ["Next", "Continue"] },
         { «type» := "element_exists", selector := ".progress, [class*=\"question-num\"]" },
         { «type» := "quiz_flow", result := "shows_score_at_end" },
         { «type» := "button_exists", text := ["Restart", "Try Again"] },
         { «type» := "selection_feedback", result := "visual_change" }] },
    round2 :=
    { brief := "Enhance your quiz app with:\n- Timer for each question (\x7btime_limit\x7d seconds)\n- Progress bar showing completion percentage\n- Score breakdown (correct/incorrect/skipped)\n- Review mode showing all answers after completion\n- Highlight correct/wrong answers with \x7bcorrect_color\x7d and \x7bwrong_color\x7d\n- Category selection (minimum \x7bnum_categories\x7d categories)\n- Leaderboard with top \x7bleaderboard_size\x7d scores (localStorage)\n- Sound effects for correct/wrong answers\n- Difficulty levels (Easy, Medium, Hard)",
      params := [("time_limit", ["30", "45", "60"]),
                 ("correct_color", ["green", "lightgreen", "#00ff00"]),
                 ("wrong_color", ["red", "lightcoral", "#ff0000"]),
                 ("num_categories", ["3", "4"]),
                 ("leaderboard_size", ["5", "10"])],
      checks :=
        [{ «type» := "element_exists", selector := ".timer, [class*=\"timer\"]" },
         { «type» := "timer_countdown", result := "time_decreases" },
         { «type» := "element_exists", selector := "progress, .progress-bar" },
         { «type» := "element_exists", selector := ".score-breakdown, .statistics" },
         { «type» := "review_mode_check", result := "shows_all_questions" },
         { «type» := "answer_highlighting" },
         { «type» := "category_selection" },
         { «type» := "element_exists", selector := ".leaderboard, [class*=\"leader\"]" },
         { «type» := "difficulty_selection" }] } }

/-- `TEMPLATES`, as an association list in the dict's insertion order. -/
def TEMPLATES : List (String × TaskTemplate) :=
  [("image-viewer", imageViewerTemplate),
   ("calculator", calculatorTemplate),
   ("todo-list", todoListTemplate),
   ("weather-dashboard", weatherDashboardTemplate),
   ("quiz-app", quizAppTemplate)]

/-- `get_template` (`TEMPLATES.get(template_id)`). -/
def getTemplate (template_id : String) : Option TaskTemplate :=
  (TEMPLATES.find? (fun p => p.1 = template_id)).map (fun p => p.2)

/-- `get_random_template`: re-seed from `md5(seed)` and draw one template
from `list(TEMPLATES.values())`; the incoming generator state is
discarded by the re-seeding. -/
def getRandomTemplate (env : GenEnv) (seed : String) (_rngIn : Nat) :
    TaskTemplate × Nat :=
  let s := env.seed (env.md5hex seed)
  pyChoice env s (TEMPLATES.map (fun p => p.2)) imageViewerTemplate

/-- Hex digit characters, as produced by `hexdigest()`. -/
def hexChar (d : Nat) : Char :=
  match d with
  | 0 => '0' | 1 => '1' | 2 => '2' | 3 => '3' | 4 => '4'
  | 5 => '5' | 6 => '6' | 7 => '7' | 8 => '8' | 9 => '9'
  | 10 => 'a' | 11 => 'b' | 12 => 'c' | 13 => 'd' | 14 => 'e'
  | _ => 'f'

/-- Hex digits of `n`, least significant first. -/
def natToHexRev (n : Nat) : List Char :=
  if h : n = 0 then []
  else hexChar (n % 16) :: natToHexRev (n / 16)
decreasing_by exact Nat.div_lt_self (Nat.pos_of_ne_zero h) (by norm_num)

/-- `sha256(...).hexdigest()` of the digest value: the 64-character
zero-padded lowercase hex string. -/
def hexDigest64 (n : Nat) : List Char :=
  let ds := (natToHexRev n).reverse
  List.replicate (64 - ds.length) '0' ++ ds

/-- `generate_task_id` in `task_templates.py`:
`template_id ++ "-" ++ sha256(brief ++ str(attachments)).hexdigest()[:5]`. -/
def generate_task_id (env : GenEnv) (template_id brief : String)
    (attachments : List Attachment) : String :=
  let content := brief ++ pyStrAttachments attachments
  let hash_value := String.mk ((hexDigest64 (env.sha256 content)).take 5)
  template_id ++ "-" ++ hash_value

/-- `EVALUATION_URL` in `round1.py` / `round2.py`. -/
def EVALUATION_URL : String := "http://localhost:8000/api/evaluation"

/-- The task dict built by `generate_task` in `round1.py` (the wall-clock
`timestamp` field is carried by the caller's environment and omitted). -/
structure GeneratedTaskDict where
  email : String
  task : String
  round : Nat
  nonce : String
  brief : String
  attachments : List Attachment
  checks : List Check
  evaluation_url : String
  endpoint : String
  secret : String
  deriving Repr, DecidableEq

/-- `generate_task` in `round1.py`.  `timestamp_hour` is
`utcnow().strftime("%Y-%m-%d-%H")` and `nonce` is `str(uuid.uuid4())`,
both read from the ambient environment and passed explicitly here;
`_rngIn` is the incoming global generator state, discarded by the
re-seeding inside `get_random_template` / `TaskTemplate.generate`. -/
def generate_task (env : GenEnv) (sub : CsvSubmission) (round : Nat)
    (timestamp_hour nonce : String) (rngIn : Nat) : GeneratedTaskDict × Nat :=
  let seed := sub.email ++ "-" ++ timestamp_hour
  let (template, s1) := getRandomTemplate env seed rngIn
  let (content, s2) := template.generate env round sub.email timestamp_hour s1
  let task_id := generate_task_id env template.id content.1 content.2.1
  ({ email := sub.email, task := task_id, round := round, nonce := nonce,
     brief := content.1, attachments := content.2.1, checks := content.2.2,
     evaluation_url := EVALUATION_URL, endpoint := sub.endpoint,
     secret := sub.secret }, s2)

/-- Python `task_id.split('-')` on the character list: splitting on every
separator, adjacent separators and string edges producing empty groups. -/
def pySplit (sep : Char) : List Char → List (List Char)
  | [] => [[]]
  | c :: cs =>
    if c = sep then [] :: pySplit sep cs
    else
      match pySplit sep cs with
      | [] => [[c]]
      | g :: gs => (c :: g) :: gs

/-- `get_template_from_task_id` in `round2.py`: split on `'-'` and rejoin
all but the last part (handling multi-part template ids), then look the
id up in the catalog. -/
def get_template_from_task_id (task_id : String) : Option TaskTemplate :=
  let parts := pySplit '-' task_id.toList
  if parts.length ≥ 2 then
    getTemplate (String.mk (List.intercalate ['-'] parts.dropLast))
  else none

/-!
## Concrete instances used in counterexamples and witnesses
-/

/-- A page on which every query succeeds and finds nothing: no elements
match any selector, clicks succeed, no modal appears, the body always has
positive width. -/
def trivialPage : Page :=
  { query_selector_all := fun _ => .ok 0
    query_selector := fun _ => .ok false
    click := fun _ => .ok ()
    modal_query := .ok none
    body_probe := fun _ => .ok (some 1) }

/-- A parsed page with no matching elements and no buttons. -/
def trivialSoup : Soup :=
  { select_count := fun _ => .ok 0
    buttons := .ok [] }

/-- A page on which every primitive raises the exception `e`. -/
def failingPage (e : String) : Page :=
  { query_selector_all := fun _ => .error e
    query_selector := fun _ => .error e
    click := fun _ => .error e
    modal_query := .error e
    body_probe := fun _ => .error e }

/-- Whether a dispatch attempt outcome is the strict success `HTTP 200`
(derived predicate, used only to state theorems). -/
def isOk200 : DispatchOutcome → Bool
  | .status c _ => c == 200
  | _ => false

/-- The final status code `post_task_to_student` persists after
exhausting its retries: the last HTTP status, or `0` for a timeout or
request exception (derived, used only to state theorems). -/
def finalStatusOf : DispatchOutcome → Nat
  | .status c _ => c
  | _ => 0

/-- The Round-1 result rows the ledger holds for one participant
(derived characterisation, used only to state theorems). -/
def round1Results (db : DB) (email : String) : List ResultRow :=
  db.results.filter (fun r => decide (r.email = email) && decide (r.round = 1))

/-- A concrete student endpoint that answers HTTP 503, then times out,
then answers HTTP 500. -/
def c6Resp : Nat → DispatchOutcome
  | 0 => .status 503 "unavailable"
  | 1 => .timeout
  | _ => .status 500 "boom"

/-- A concrete `element_exists` descriptor (the first check of the
image-viewer template's round 1). -/
def exElemCheck : Check :=
  { «type» := "element_exists", selector := "img", min_count := 3 }

/-- A concrete `click_interaction` descriptor (the third check of the
image-viewer template's round 1). -/
def exClickCheck : Check :=
  { «type» := "click_interaction", selector := "img", result := "modal_opens" }

/-- A concrete (toy) hash-and-generator environment used to evaluate the
generation pipeline in witnesses; the theorems hold for every
environment. -/
def c7Env : GenEnv :=
  { md5hex := fun s => s
    seed := fun s => s.length
    next := fun s => (s + 3, s * 2 + 1)
    sha256 := fun s => s.length * 2654435761 }

/-!
# Theorems
-/

/-- C2: for a fixed `(email, hour_bucket)` and `round = 1`, any two
invocations of `generate_task` — with arbitrary and possibly different
CSV timestamps, endpoints, secrets, nonces, and incoming global
generator states — return identical `brief`, `attachments`, `checks`,
and `task_id`: the re-seeding from `md5(email ++ "-" ++ hour)` makes
those four outputs a function of `(email, hour_bucket, round)` alone
(the `nonce` is drawn from `uuid4` and is not required to coincide). -/
theorem c2_generation_deterministic
    (env : GenEnv) (email hour : String) (t1 t2 ep1 ep2 sc1 sc2 n1 n2 : String)
    (r1 r2 : Nat) :
    (generate_task env ⟨t1, email, ep1, sc1⟩ 1 hour n1 r1).1.brief =
      (generate_task env ⟨t2, email, ep2, sc2⟩ 1 hour n2 r2).1.brief ∧
    (generate_task env ⟨t1, email, ep1, sc1⟩ 1 hour n1 r1).1.attachments =
      (generate_task env ⟨t2, email, ep2, sc2⟩ 1 hour n2 r2).1.attachments ∧
    (generate_task env ⟨t1, email, ep1, sc1⟩ 1 hour n1 r1).1.checks =
      (generate_task env ⟨t2, email, ep2, sc2⟩ 1 hour n2 r2).1.checks ∧
    (generate_task env ⟨t1, email, ep1, sc1⟩ 1 hour n1 r1).1.task =
      (generate_task env ⟨t2, email, ep2, sc2⟩ 1 hour n2 r2).1.task :=
  ⟨rfl, rfl, rfl, rfl⟩

/-- C5: once any result row exists for a repo's `(email, task, round)`,
the evaluation loop of `evaluate.main` skips that repo: the iteration
for it inserts nothing and the loop over just that repo leaves the
ledger unchanged, whatever results the evaluator would have produced. -/
theorem c5_single_evaluation_guard
    (evalRepo : RepoRow → List ResultRow) (repo : RepoRow)
    (rest : List RepoRow) (db : DB)
    (h : resultExists db repo.email repo.task repo.round = true) :
    evalMainLoop evalRepo (repo :: rest) db = evalMainLoop evalRepo rest db ∧
    evalMainLoop evalRepo [repo] db = db := by
  constructor <;> simp [evalMainLoop, h]

/-- Witness for C5 at a concrete ledger holding one result row for the
repo being re-processed: even an evaluator that would produce a new row
inserts nothing. -/
theorem c5_single_evaluation_guard_witness :
    evalMainLoop
      (fun _ => [{ email := "a@x.com", task := "calculator-00000", round := 1,
                   check := "code_quality", score := some 1 }])
      [{ email := "a@x.com", task := "calculator-00000", round := 1, nonce := "n1",
         repo_url := "https://github.com/a/r", commit_sha := "deadbeef",
         pages_url := "https://a.github.io/r" }]
      { results := [{ email := "a@x.com", task := "calculator-00000", round := 1,
                      check := "mit_license", score := some 0 }] } =
    { results := [{ email := "a@x.com", task := "calculator-00000", round := 1,
                    check := "mit_license", score := some 0 }] } :=
  (c5_single_evaluation_guard _ _ [] _ (by decide)).2

/-- The dispatch retry loop's sleep sequence is always a prefix of
`[60, 180]`, whatever the three attempt outcomes are. -/
lemma postTaskToStudent_sleeps_cases (resp : Nat → DispatchOutcome) :
    (postTaskToStudent resp).sleeps = [] ∨ (postTaskToStudent resp).sleeps = [60] ∨
      (postTaskToStudent resp).sleeps = [60, 180] := by
  rcases h0 : resp 0 with ⟨c0, t0⟩ | - | m0 <;>
    rcases h1 : resp 1 with ⟨c1, t1⟩ | - | m1 <;>
      rcases h2 : resp 2 with ⟨c2, t2⟩ | - | m2 <;>
        simp [postTaskToStudent, postTaskLoop, h0, h1, h2, MAX_RETRIES, RETRY_DELAYS] <;>
          (split_ifs <;> simp)

/-- C9: whatever the student endpoint does, `post_task_to_student`
sleeps at most twice, with delays 60 s and then 180 s; the third
configured delay (600 s, present in `RETRY_DELAYS`) is never slept, so
cumulative retry sleep is at most 240 s.  The `round2.py` copy behaves
identically. -/
theorem c9_third_delay_never_used (resp : Nat → DispatchOutcome) :
    ((postTaskToStudent resp).sleeps = [] ∨ (postTaskToStudent resp).sleeps = [60] ∨
      (postTaskToStudent resp).sleeps = [60, 180]) ∧
    (postTaskToStudent resp).sleeps.length ≤ 2 ∧
    (postTaskToStudent resp).sleeps.sum ≤ 240 ∧
    600 ∉ (postTaskToStudent resp).sleeps ∧
    (postTaskToStudentRound2 resp).sleeps = (postTaskToStudent resp).sleeps ∧
    RETRY_DELAYS = [60, 180, 600] := by
  have hcases := postTaskToStudent_sleeps_cases resp
  refine ⟨hcases, ?_, ?_, ?_, rfl, rfl⟩ <;>
    rcases hcases with h | h | h <;> simp [h]

/-- C6: `post_task_to_student` makes at most 3 POST attempts; the first
`HTTP 200` returns `(200, None)` immediately with the attempt count so
far; exhausting all attempts yields the final non-200 status code — or
`0` for a timeout or request (connection) error — together with an error
string; and the `process_submissions` batch loop persists that outcome
on the task row and continues with the remaining participants, whatever
the outcome was. -/
theorem c6_dispatch_contract :
    (∀ resp : Nat → DispatchOutcome, (postTaskToStudent resp).attempts ≤ 3) ∧
    (∀ (resp : Nat → DispatchOutcome) (k : Nat) (t : String), k < 3 →
      (∀ i, i < k → isOk200 (resp i) = false) → resp k = .status 200 t →
      (postTaskToStudent resp).status_code = 200 ∧
      (postTaskToStudent resp).error = none ∧
      (postTaskToStudent resp).attempts = k + 1) ∧
    (∀ resp : Nat → DispatchOutcome, (∀ i, i < 3 → isOk200 (resp i) = false) →
      (postTaskToStudent resp).attempts = 3 ∧
      (postTaskToStudent resp).status_code = finalStatusOf (resp 2) ∧
      (postTaskToStudent resp).error.isSome = true) ∧
    (∀ (gen : CsvSubmission → TaskRow) (post : TaskRow → Nat × Option String)
        (sub : CsvSubmission) (rest : List CsvSubmission) (db : DB),
      (taskExists db (gen sub).email (gen sub).task (gen sub).round = false →
        processSubmissions gen post (sub :: rest) db =
          processSubmissions gen post rest
            (insertTask db { gen sub with statuscode := some (post (gen sub)).1, error := (post (gen sub)).2 })) ∧
      (taskExists db (gen sub).email (gen sub).task (gen sub).round = true →
        processSubmissions gen post (sub :: rest) db =
          processSubmissions gen post rest db)) := by
  refine ⟨?_, ?_, ?_, ?_⟩
  · intro resp
    rcases h0 : resp 0 with ⟨c0, t0⟩ | - | m0 <;>
      rcases h1 : resp 1 with ⟨c1, t1⟩ | - | m1 <;>
        rcases h2 : resp 2 with ⟨c2, t2⟩ | - | m2 <;>
          simp [postTaskToStudent, postTaskLoop, h0, h1, h2, MAX_RETRIES, RETRY_DELAYS] <;>
            (split_ifs <;> simp)
  · intro resp k t hk hprev h200
    interval_cases k
    · simp [postTaskToStudent, postTaskLoop, h200, MAX_RETRIES]
    · have f0 := hprev 0 (by omega)
      rcases h0 : resp 0 with ⟨c0, t0⟩ | - | m0 <;> rw [h0] at f0 <;>
        simp [isOk200] at f0 <;>
        simp [postTaskToStudent, postTaskLoop, h0, h200, f0, MAX_RETRIES, RETRY_DELAYS]
    · have f0 := hprev 0 (by omega)
      have f1 := hprev 1 (by omega)
      rcases h0 : resp 0 with ⟨c0, t0⟩ | - | m0 <;> rw [h0] at f0 <;>
        rcases h1 : resp 1 with ⟨c1, t1⟩ | - | m1 <;> rw [h1] at f1 <;>
          simp [isOk200] at f0 f1 <;>
          simp [postTaskToStudent, postTaskLoop, h0, h1, h200, f0, f1,
                MAX_RETRIES, RETRY_DELAYS]
  · intro resp hfail
    have f0 := hfail 0 (by omega)
    have f1 := hfail 1 (by omega)
    have f2 := hfail 2 (by omega)
    rcases h0 : resp 0 with ⟨c0, t0⟩ | - | m0 <;> rw [h0] at f0 <;>
      rcases h1 : resp 1 with ⟨c1, t1⟩ | - | m1 <;> rw [h1] at f1 <;>
        rcases h2 : resp 2 with ⟨c2, t2⟩ | - | m2 <;> rw [h2] at f2 <;>
          simp [isOk200] at f0 f1 f2 <;>
          simp [postTaskToStudent, postTaskLoop, finalStatusOf, h0, h1, h2,
                f0, f1, f2, MAX_RETRIES, RETRY_DELAYS]
  · intro gen post sub rest db
    constructor <;> intro h <;> simp [processSubmissions, h]

/-- Witness for C6 at a concrete outcome sequence: attempt 1 gets HTTP
503, attempt 2 times out, attempt 3 gets HTTP 500, so dispatch reports
`(500, error)` after 3 attempts; the batch loop persists that outcome on
the task row and moves to the next participant (here: none). -/
theorem c6_dispatch_contract_witness :
    (postTaskToStudent c6Resp).attempts = 3 ∧
    (postTaskToStudent c6Resp).status_code = finalStatusOf (c6Resp 2) ∧
    (postTaskToStudent c6Resp).error.isSome = true ∧
    (postTaskToStudent (fun _ => .status 200 "ok")).status_code = 200 ∧
    (postTaskToStudent (fun _ => .status 200 "ok")).attempts = 1 ∧
    processSubmissions (fun _ => { email := "a@x.com", task := "t-1", round := 1, nonce := "n" })
      (fun _ => (500, some "HTTP 500: boom"))
      [{ timestamp := "2025-10-16", email := "a@x.com", endpoint := "http://e", secret := "s" }]
      {} =
      insertTask {} { email := "a@x.com", task := "t-1", round := 1, nonce := "n",
                      statuscode := some 500, error := some "HTTP 500: boom" } := by
  have h3 := c6_dispatch_contract.2.2.1 c6Resp (by
    intro i hi
    interval_cases i <;> decide)
  have h200 := c6_dispatch_contract.2.1 (fun _ => .status 200 "ok") 0 "ok"
    (by omega) (by omega) rfl
  have hbatch := (c6_dispatch_contract.2.2.2
    (fun _ => { email := "a@x.com", task := "t-1", round := 1, nonce := "n" })
    (fun _ => (500, some "HTTP 500: boom"))
    { timestamp := "2025-10-16", email := "a@x.com", endpoint := "http://e", secret := "s" }
    [] {}).1 (by decide)
  refine ⟨h3.1, h3.2.1, h3.2.2, h200.1, by simpa using h200.2.2, ?_⟩
  simpa [processSubmissions] using hbatch

/-- A `notify` run can only report `success = true` if some attempt's
POST actually received HTTP 200. -/
lemma notifyLoop_success_has200 (resp : Nat → NetOutcome) :
    ∀ (fuel attempt : Nat), (notifyLoop resp attempt fuel).1.success = true →
      ∃ a t, resp a = .status 200 t := by
  intro fuel
  induction fuel with
  | zero => intro attempt h; simp [notifyLoop] at h
  | succ n ih =>
    intro attempt h
    rcases ho : resp attempt with ⟨c, t⟩ | - | m | m | m <;>
      simp [notifyLoop, ho] at h
    · by_cases hc : c = 200
      · exact ⟨attempt, t, by rw [ho, hc]⟩
      · by_cases h7 : attempt ≥ notifierMaxRetries <;> simp [hc, h7] at h
        exact ih _ h
    all_goals
      by_cases h7 : attempt ≥ notifierMaxRetries <;> simp [h7] at h
    all_goals exact ih _ h

/-- C3: if every POST receives HTTP 500, `EvaluationNotifier.notify`
performs exactly 8 attempts with sleeps `1, 2, 4, 8, 16, 32, 64` seconds
(cumulative sleep 127 s, within `[1, 127]`, and none after the final
attempt) and returns `success = false`; if the first POST receives
HTTP 200 it returns `success = true` with `attempts = 1` and performs no
sleep; and a `success = true` return is only possible when some POST
received HTTP 200. -/
theorem c3_notifier_retry_bound :
    ((notify all500).1.success = false ∧ (notify all500).1.attempts = 8 ∧
      (notify all500).2 = [1, 2, 4, 8, 16, 32, 64] ∧
      1 ≤ (notify all500).2.sum ∧ (notify all500).2.sum ≤ 127) ∧
    (∀ (resp : Nat → NetOutcome) (t : String), resp 0 = .status 200 t →
      (notify resp).1 = { success := true, status_code := some 200, attempts := 1 } ∧
      (notify resp).2 = []) ∧
    (∀ resp : Nat → NetOutcome, (notify resp).1.success = true →
      ∃ a t, resp a = .status 200 t) := by
  refine ⟨by decide, ?_, ?_⟩
  · intro resp t h
    constructor <;> simp [notify, notifyLoop, h, notifierMaxRetries]
  · intro resp h
    exact notifyLoop_success_has200 resp _ _ h

/-- Witness for C3 at concrete endpoints: the always-200 endpoint gives
`attempts = 1` with no sleep, and that successful run indeed contains an
HTTP 200 response. -/
theorem c3_notifier_retry_bound_witness :
    (notify (fun _ => .status 200 "ok")).1 =
      { success := true, status_code := some 200, attempts := 1 } ∧
    (notify (fun _ => .status 200 "ok")).2 = [] ∧
    ∃ (a : Nat) (t : String),
      (fun (_ : Nat) => NetOutcome.status 200 "ok") a = NetOutcome.status 200 t := by
  have h1 := c3_notifier_retry_bound.2.1 (fun _ => .status 200 "ok") "ok" rfl
  have h2 := c3_notifier_retry_bound.2.2 (fun _ => .status 200 "ok") (by decide)
  exact ⟨h1.1, h1.2, h2⟩

/-- C4: a submission request whose nonce resolves to no task, or to a
task whose `email`, `task_id` or `round` differs from the request's, is
answered with HTTP 400 and the `repos` table is left unchanged (no row
is inserted). -/
theorem c4_submission_integrity (db : DB) (req : EvaluationRequest) :
    (getTaskByNonce db req.nonce = none →
      (evaluationEndpoint db req).1.status = 400 ∧
      (evaluationEndpoint db req).2.repos = db.repos) ∧
    (∀ task : TaskRow, getTaskByNonce db req.nonce = some task →
      task.email ≠ req.email ∨ task.task ≠ req.task ∨ task.round ≠ req.round →
      (evaluationEndpoint db req).1.status = 400 ∧
      (evaluationEndpoint db req).2.repos = db.repos) := by
  constructor
  · intro h
    simp [evaluationEndpoint, h]
  · intro task h hm
    by_cases h1 : task.email ≠ req.email
    · simp [evaluationEndpoint, h, h1]
    · by_cases h2 : task.task ≠ req.task
      · simp [evaluationEndpoint, h, h1, h2]
      · have h3 : task.round ≠ req.round := by tauto
        simp [evaluationEndpoint, h, h1, h2, h3]

/-- Witness for C4 at a concrete ledger holding one task: a request with
an unknown nonce and a request whose nonce resolves to the task but
carries a different email are both rejected with 400 and insert no repo
row. -/
theorem c4_submission_integrity_witness :
    ((evaluationEndpoint
        { tasks := [{ email := "a@x.com", task := "t-1", round := 1, nonce := "n1" }] }
        { email := "a@x.com", task := "t-1", round := 1, nonce := "missing",
          repo_url := "u", commit_sha := "c", pages_url := "p" }).1.status = 400 ∧
      (evaluationEndpoint
        { tasks := [{ email := "a@x.com", task := "t-1", round := 1, nonce := "n1" }] }
        { email := "a@x.com", task := "t-1", round := 1, nonce := "missing",
          repo_url := "u", commit_sha := "c", pages_url := "p" }).2.repos = []) ∧
    ((evaluationEndpoint
        { tasks := [{ email := "a@x.com", task := "t-1", round := 1, nonce := "n1" }] }
        { email := "evil@x.com", task := "t-1", round := 1, nonce := "n1",
          repo_url := "u", commit_sha := "c", pages_url := "p" }).1.status = 400 ∧
      (evaluationEndpoint
        { tasks := [{ email := "a@x.com", task := "t-1", round := 1, nonce := "n1" }] }
        { email := "evil@x.com", task := "t-1", round := 1, nonce := "n1",
          repo_url := "u", commit_sha := "c", pages_url := "p" }).2.repos = []) := by
  have hA := (c4_submission_integrity
    { tasks := [{ email := "a@x.com", task := "t-1", round := 1, nonce := "n1" }] }
    { email := "a@x.com", task := "t-1", round := 1, nonce := "missing",
      repo_url := "u", commit_sha := "c", pages_url := "p" }).1 (by decide)
  have hB := (c4_submission_integrity
    { tasks := [{ email := "a@x.com", task := "t-1", round := 1, nonce := "n1" }] }
    { email := "evil@x.com", task := "t-1", round := 1, nonce := "n1",
      repo_url := "u", commit_sha := "c", pages_url := "p" }).2
    { email := "a@x.com", task := "t-1", round := 1, nonce := "n1" }
    (by decide) (Or.inl (by decide))
  exact ⟨hA, hB⟩

/-- For a participant with a (necessarily non-empty) validated email,
`Database.get_results(email=..., round=1)` returns exactly the Round-1
rows of that participant. -/
lemma getResults_eq_round1Results (db : DB) (email : String) (h : email ≠ "") :
    getResults db (some email) (some 1) = round1Results db email := by
  unfold getResults round1Results
  simp [h]

/-- C10: for a repo record (ingestion validates `email` as an address,
hence non-empty) with no Round-2 task row and no Round-2 repo row for
its `(email, task)`, `should_generate_round2` returns `True` whenever
the ledger has no Round-1 result rows for that email, and returns
`False` exactly when some Round-1 result named `mit_license` or
`page_load` has score exactly 0. -/
theorem c10_round2_eligibility (db : DB) (repo : RepoRow)
    (he : repo.email ≠ "")
    (h2t : taskExists db repo.email repo.task 2 = false)
    (h2r : repoExists db repo.email repo.task 2 = false) :
    getResults db (some repo.email) (some 1) = round1Results db repo.email ∧
    (round1Results db repo.email = [] → shouldGenerateRound2 db repo = true) ∧
    (shouldGenerateRound2 db repo = false ↔
      ∃ r ∈ round1Results db repo.email,
        (r.check = "mit_license" ∨ r.check = "page_load") ∧ r.score = some 0) := by
  have hg := getResults_eq_round1Results db repo.email he
  refine ⟨hg, ?_, ?_⟩
  · intro h0
    simp [shouldGenerateRound2, h2t, h2r, hg, h0]
  · by_cases h0 : round1Results db repo.email = []
    · simp [shouldGenerateRound2, h2t, h2r, hg, h0]
    · simp only [shouldGenerateRound2, h2t, h2r, hg, h0, Bool.false_eq_true,
        if_false, if_neg h0]
      by_cases hany : (round1Results db repo.email).any
          (fun r => decide (r.check ∈ critical_checks) && decide (r.score = some 0))
      · simp only [hany, if_true]
        constructor
        · intro _
          rcases List.any_eq_true.mp hany with ⟨r, hr, hf⟩
          simp only [Bool.and_eq_true, decide_eq_true_eq, critical_checks,
            List.mem_cons, List.mem_singleton, List.not_mem_nil, or_false] at hf
          exact ⟨r, hr, hf.1, hf.2⟩
        · intro _; trivial
      · simp only [hany, if_false]
        constructor
        · intro habs; exact absurd habs (by simp)
        · rintro ⟨r, hr, hcrit, hscore⟩
          exact absurd (List.any_eq_true.mpr ⟨r, hr, by
            simp [critical_checks, hcrit, hscore]⟩) hany

/-- Witness for C10 at concrete ledgers: with no Round-1 results Round 2
is generated anyway; with a `mit_license` result scored 0 it is
blocked. -/
theorem c10_round2_eligibility_witness :
    shouldGenerateRound2 { results := [] }
      { email := "a@x.com", task := "t-1", round := 1, nonce := "n1",
        repo_url := "u", commit_sha := "c", pages_url := "p" } = true ∧
    shouldGenerateRound2
      { results := [{ email := "a@x.com", task := "t-1", round := 1,
                      check := "mit_license", score := some 0 }] }
      { email := "a@x.com", task := "t-1", round := 1, nonce := "n1",
        repo_url := "u", commit_sha := "c", pages_url := "p" } = false := by
  have hA := (c10_round2_eligibility { results := [] }
    { email := "a@x.com", task := "t-1", round := 1, nonce := "n1",
      repo_url := "u", commit_sha := "c", pages_url := "p" }
    (by decide) (by decide) (by decide)).2.1 (by decide)
  have hB := (c10_round2_eligibility
    { results := [{ email := "a@x.com", task := "t-1", round := 1,
                    check := "mit_license", score := some 0 }] }
    { email := "a@x.com", task := "t-1", round := 1, nonce := "n1",
      repo_url := "u", commit_sha := "c", pages_url := "p" }
    (by decide) (by decide) (by decide)).2.2.mpr
    ⟨{ email := "a@x.com", task := "t-1", round := 1,
       check := "mit_license", score := some 0 }, by decide, Or.inl rfl, rfl⟩
  exact ⟨hA, hB⟩

/-- `hexdigest` characters are hex digits, never `'-'`. -/
lemma hexChar_ne_dash (d : Nat) : hexChar d ≠ '-' := by
  unfold hexChar
  split <;> decide

/-- No character of `natToHexRev n` is `'-'`. -/
lemma natToHexRev_ne_dash : ∀ n : Nat, ∀ c ∈ natToHexRev n, c ≠ '-' := by
  intro n
  induction n using Nat.strong_induction_on with
  | _ n ih =>
    intro c hc
    by_cases hn : n = 0
    · rw [natToHexRev, dif_pos hn] at hc
      simp at hc
    · rw [natToHexRev, dif_neg hn] at hc
      rcases List.mem_cons.mp hc with h | h
      · rw [h]; exact hexChar_ne_dash _
      · exact ih (n / 16)
          (Nat.div_lt_self (Nat.pos_of_ne_zero hn) (by norm_num)) c h

/-- The first five characters of a hexdigest never contain `'-'`. -/
lemma hexDigest64_take5_no_dash (n : Nat) :
    '-' ∉ (hexDigest64 n).take 5 := by
  intro hmem
  have hmem' : '-' ∈ hexDigest64 n := List.take_subset 5 _ hmem
  unfold hexDigest64 at hmem'
  rcases List.mem_append.mp hmem' with h | h
  · exact absurd (List.eq_of_mem_replicate h) (by decide)
  · exact natToHexRev_ne_dash n '-' (List.mem_reverse.mp h) rfl

/-- Splitting a separator-free string yields a single group. -/
lemma pySplit_no_sep (sep : Char) (l : List Char) (h : sep ∉ l) :
    pySplit sep l = [l] := by
  induction l with
  | nil => rfl
  | cons c cs ih =>
    simp only [List.mem_cons, not_or] at h
    rw [pySplit, if_neg (fun e => h.1 e.symm), ih h.2]

/-- Splitting past a separator-free prefix peels off that prefix as the
first group. -/
lemma pySplit_append_sep (sep : Char) (pre rest : List Char) (h : sep ∉ pre) :
    pySplit sep (pre ++ sep :: rest) = pre :: pySplit sep rest := by
  induction pre with
  | nil => simp [pySplit]
  | cons c cs ih =>
    simp only [List.mem_cons, not_or] at h
    rw [List.cons_append, pySplit, if_neg (fun e => h.1 e.symm), ih h.2]

/-- `pySplit` always returns at least one group. -/
lemma pySplit_ne_nil (sep : Char) (l : List Char) : pySplit sep l ≠ [] := by
  cases l with
  | nil => simp [pySplit]
  | cons c cs =>
    by_cases h : c = sep
    · simp [pySplit, h]
    · rw [pySplit, if_neg h]
      rcases hcs : pySplit sep cs with - | ⟨g, gs⟩ <;> simp

/-- Splitting distributes over a separator: this is the
`"a-b".split('-') = "a".split('-') ++ "b".split('-')` law. -/
lemma pySplit_append (sep : Char) (a b : List Char) :
    pySplit sep (a ++ sep :: b) = pySplit sep a ++ pySplit sep b := by
  induction a with
  | nil => simp [pySplit]
  | cons c cs ih =>
    by_cases hc : c = sep
    · rw [List.cons_append, pySplit, if_pos hc, ih, pySplit, if_pos hc,
        List.cons_append]
    · rw [List.cons_append, pySplit, if_neg hc, ih, pySplit, if_neg hc]
      rcases hcs : pySplit sep cs with - | ⟨g, gs⟩
      · exact absurd hcs (pySplit_ne_nil sep cs)
      · simp

/-- Splitting a generated task id `"{tid}-{suffix}"` with a dash-free
suffix appends the suffix as one final group after `tid`'s own groups. -/
lemma pySplit_task_id (tid : String) (l : List Char) (hl : '-' ∉ l) :
    pySplit '-' ((tid ++ "-" ++ String.mk l).toList) = pySplit '-' tid.data ++ [l] := by
  have htl : (tid ++ "-" ++ String.mk l).toList = tid.data ++ '-' :: l := by
    simp [String.toList, String.data_append]
  rw [htl, pySplit_append, pySplit_no_sep _ _ hl]

/-- C7: for every template id in the catalog and arbitrary brief and
attachments, parsing the generated task id (`"{template_id}-{hash5}"`,
split on the last `'-'`) recovers exactly the catalog template with that
id — including for template ids that themselves contain `'-'`, because
the 5-hex-char hash suffix contains no `'-'`. -/
theorem c7_task_id_roundtrip (env : GenEnv) (template_id brief : String)
    (attachments : List Attachment)
    (h : template_id ∈ TEMPLATES.map Prod.fst) :
    ∃ tmpl : TaskTemplate,
      get_template_from_task_id (generate_task_id env template_id brief attachments) =
        some tmpl ∧
      tmpl.id = template_id ∧ getTemplate template_id = some tmpl := by
  have hno : '-' ∉ (hexDigest64 (env.sha256 (brief ++ pyStrAttachments attachments))).take 5 :=
    hexDigest64_take5_no_dash _
  simp only [TEMPLATES, List.map_cons, List.map_nil, List.mem_cons,
    List.not_mem_nil, or_false] at h
  rcases h with h | h | h | h | h <;> subst h
  · refine ⟨imageViewerTemplate, ?_, rfl, rfl⟩
    unfold generate_task_id get_template_from_task_id
    dsimp only
    rw [pySplit_task_id _ _ hno,
      show pySplit '-' ("image-viewer").data = ["image".data, "viewer".data] from by decide,
      List.dropLast_concat]
    simp only [List.length_append, List.length_cons, List.length_nil, ge_iff_le,
      if_pos (by omega : 2 ≤ 2 + 1 + 0 + 1)]
    rw [show String.mk (List.intercalate ['-'] ["image".data, "viewer".data]) =
      "image-viewer" from by decide]
    rfl
  · refine ⟨calculatorTemplate, ?_, rfl, rfl⟩
    unfold generate_task_id get_template_from_task_id
    dsimp only
    rw [pySplit_task_id _ _ hno,
      show pySplit '-' ("calculator").data = ["calculator".data] from by decide,
      List.dropLast_concat]
    simp only [List.length_append, List.length_cons, List.length_nil, ge_iff_le,
      if_pos (by omega : 2 ≤ 1 + 0 + 1 + 1 - 1)]
    rw [show String.mk (List.intercalate ['-'] ["calculator".data]) =
      "calculator" from by decide]
    rfl
  · refine ⟨todoListTemplate, ?_, rfl, rfl⟩
    unfold generate_task_id get_template_from_task_id
    dsimp only
    rw [pySplit_task_id _ _ hno,
      show pySplit '-' ("todo-list").data = ["todo".data, "list".data] from by decide,
      List.dropLast_concat]
    simp only [List.length_append, List.length_cons, List.length_nil, ge_iff_le,
      if_pos (by omega : 2 ≤ 2 + 1 + 0 + 1)]
    rw [show String.mk (List.intercalate ['-'] ["todo".data, "list".data]) =
      "todo-list" from by decide]
    rfl
  · refine ⟨weatherDashboardTemplate, ?_, rfl, rfl⟩
    unfold generate_task_id get_template_from_task_id
    dsimp only
    rw [pySplit_task_id _ _ hno,
      show pySplit '-' ("weather-dashboard").data
        = ["weather".data, "dashboard".data] from by decide,
      List.dropLast_concat]
    simp only [List.length_append, List.length_cons, List.length_nil, ge_iff_le,
      if_pos (by omega : 2 ≤ 2 + 1 + 0 + 1)]
    rw [show String.mk (List.intercalate ['-'] ["weather".data, "dashboard".data]) =
      "weather-dashboard" from by decide]
    rfl
  · refine ⟨quizAppTemplate, ?_, rfl, rfl⟩
    unfold generate_task_id get_template_from_task_id
    dsimp only
    rw [pySplit_task_id _ _ hno,
      show pySplit '-' ("quiz-app").data = ["quiz".data, "app".data] from by decide,
      List.dropLast_concat]
    simp only [List.length_append, List.length_cons, List.length_nil, ge_iff_le,
      if_pos (by omega : 2 ≤ 2 + 1 + 0 + 1)]
    rw [show String.mk (List.intercalate ['-'] ["quiz".data, "app".data]) =
      "quiz-app" from by decide]
    rfl

/-- Witness for C7 at a concrete environment and inputs, for both a
dash-free template id (`calculator`) and one containing a dash
(`image-viewer`). -/
theorem c7_task_id_roundtrip_witness :
    (∃ tmpl : TaskTemplate,
      get_template_from_task_id
        (generate_task_id c7Env "calculator" "some brief" []) = some tmpl ∧
      tmpl.id = "calculator" ∧ getTemplate "calculator" = some tmpl) ∧
    (∃ tmpl : TaskTemplate,
      get_template_from_task_id
        (generate_task_id c7Env "image-viewer" "other brief" []) = some tmpl ∧
      tmpl.id = "image-viewer" ∧ getTemplate "image-viewer" = some tmpl) :=
  ⟨c7_task_id_roundtrip c7Env "calculator" "some brief" [] (by decide),
   c7_task_id_roundtrip c7Env "image-viewer" "other brief" [] (by decide)⟩

/-- Every list is a prefix of itself (`BEq` version). -/
lemma isPrefixOf_self (l : List Char) : l.isPrefixOf l = true := by
  induction l with
  | nil => rfl
  | cons c cs ih => simp [List.isPrefixOf, ih]

/-- A string contains its own suffix. -/
lemma containsSub_suffix (l1 l2 : List Char) : containsSub (l1 ++ l2) l2 = true := by
  induction l1 with
  | nil =>
    cases l2 with
    | nil => rfl
    | cons c cs =>
      rw [List.nil_append, containsSub]
      simp [isPrefixOf_self]
  | cons a as ih =>
    rw [List.cons_append, containsSub]
    simp [ih]

/-- Python `e in (s ++ e)` is true. -/
lemma pyIn_append (s e : String) : pyIn e (s ++ e) = true := by
  unfold pyIn
  rw [show (s ++ e).toList = s.toList ++ e.toList from by
    simp [String.toList, String.data_append]]
  exact containsSub_suffix _ _

/-- C8: on a page whose primitives raise exception text `e`, every
supported check that actually evaluates against the page (a
`button_exists` with a non-empty text list; a `responsive_check` with a
non-empty breakpoint list; the others unconditionally) is converted at
its own boundary into a 0-score result whose reason contains the error
text, and the checks before and after it in the list are still all
evaluated, in order. -/
theorem c8_fault_isolation (e : String) (check : Check) (pre post : List Check)
    (hsupp : supportedCheckType check.«type» = true)
    (hbtn : check.«type» = "button_exists" → check.text ≠ [])
    (hresp : check.«type» = "responsive_check" → check.breakpoints ≠ []) :
    ∃ r : CheckResult, runSingleCheck (failingPage e) check = some r ∧
      r.score = 0 ∧ pyIn e r.reason = true ∧
      runChecks (failingPage e) (pre ++ check :: post) =
        runChecks (failingPage e) pre ++ r :: runChecks (failingPage e) post := by
  have hlist : ∀ r : CheckResult, runSingleCheck (failingPage e) check = some r →
      runChecks (failingPage e) (pre ++ check :: post) =
        runChecks (failingPage e) pre ++ r :: runChecks (failingPage e) post := by
    intro r hr
    simp [runChecks, List.filterMap_append, List.filterMap_cons, hr]
  simp only [supportedCheckType, Bool.or_eq_true, decide_eq_true_eq] at hsupp
  rcases hsupp with ((h | h) | h) | h
  · have hr : runSingleCheck (failingPage e) check =
        some { check := "element_" ++ check.selector.take 20, score := 0,
               reason := "Error: " ++ e } := by
      simp [runSingleCheck, h, checkElementExists, failingPage]
    exact ⟨_, hr, rfl, pyIn_append "Error: " e, hlist _ hr⟩
  · rcases List.exists_cons_of_ne_nil (hbtn h) with ⟨t, ts, hts⟩
    have hr : runSingleCheck (failingPage e) check =
        some { check := "button_check", score := 0, reason := "Error: " ++ e } := by
      simp [runSingleCheck, h, checkButtonExists, hts, checkButtonExistsLoop, failingPage]
    exact ⟨_, hr, rfl, pyIn_append "Error: " e, hlist _ hr⟩
  · have hr : runSingleCheck (failingPage e) check =
        some { check := "click_interaction", score := 0, reason := "Error: " ++ e } := by
      simp [runSingleCheck, h, checkClickInteraction, failingPage]
    exact ⟨_, hr, rfl, pyIn_append "Error: " e, hlist _ hr⟩
  · rcases List.exists_cons_of_ne_nil (hresp h) with ⟨w, ws, hws⟩
    have hr : runSingleCheck (failingPage e) check =
        some { check := "responsive_design", score := 0, reason := "Error: " ++ e } := by
      simp [runSingleCheck, h, checkResponsive, hws, responsiveScores, failingPage]
    exact ⟨_, hr, rfl, pyIn_append "Error: " e, hlist _ hr⟩

/-- Witness for C8: a raising `element_exists` check between two other
checks yields its 0-score error result in place while both neighbours
are still evaluated. -/
theorem c8_fault_isolation_witness :
    ∃ r : CheckResult,
      runSingleCheck (failingPage "boom") { «type» := "element_exists", selector := "img" } =
        some r ∧
      r.score = 0 ∧ pyIn "boom" r.reason = true ∧
      runChecks (failingPage "boom")
          ([{ «type» := "click_interaction", selector := "a" }] ++
            { «type» := "element_exists", selector := "img" } ::
            [{ «type» := "button_exists", text := ["C"] }]) =
        runChecks (failingPage "boom") [{ «type» := "click_interaction", selector := "a" }] ++
          r :: runChecks (failingPage "boom") [{ «type» := "button_exists", text := ["C"] }] :=
  c8_fault_isolation "boom" { «type» := "element_exists", selector := "img" }
    [{ «type» := "click_interaction", selector := "a" }]
    [{ «type» := "button_exists", text := ["C"] }]
    (by decide) (by decide) (by decide)

/-- `_check_element_exists` scores only 0 or 1. -/
lemma checkElementExists_score (p : Page) (c : Check) :
    (checkElementExists p c).score = 0 ∨ (checkElementExists p c).score = 1 := by
  unfold checkElementExists
  cases h : p.query_selector_all c.selector with
  | error err => simp [h]
  | ok n => by_cases hn : n ≥ c.min_count <;> simp [h, hn]

/-- The `_check_button_exists` loop scores only 0 or 1. -/
lemma checkButtonExistsLoop_score (p : Page) (all : List String) (l : List String) :
    (checkButtonExistsLoop p all l).score = 0 ∨ (checkButtonExistsLoop p all l).score = 1 := by
  induction l with
  | nil => left; rfl
  | cons t ts ih =>
    cases h : p.query_selector (buttonSelector t) with
    | error err => left; simp [checkButtonExistsLoop, h]
    | ok b =>
      cases b
      · simpa [checkButtonExistsLoop, h] using ih
      · right; simp [checkButtonExistsLoop, h]

/-- `_check_click_interaction` scores only 0, 0.5 or 1. -/
lemma checkClickInteraction_score (p : Page) (c : Check) :
    (checkClickInteraction p c).score = 0 ∨ (checkClickInteraction p c).score = 1/2 ∨
      (checkClickInteraction p c).score = 1 := by
  unfold checkClickInteraction
  cases h1 : p.query_selector c.selector with
  | error err => simp [h1]
  | ok b =>
    cases b
    · simp [h1]
    · cases h2 : p.click c.selector with
      | error err => simp [h1, h2]
      | ok u =>
        by_cases hm : pyIn "modal" c.result.toLower
        · cases h3 : p.modal_query with
          | error err => simp [h1, h2, h3, hm]
          | ok ob =>
            cases ob with
            | none => simp [h1, h2, h3, hm]
            | some v => cases v <;> simp [h1, h2, h3, hm]
        · simp [h1, h2, hm]

/-- The per-breakpoint scores collected by `_check_responsive` are all 0
or 1. -/
lemma responsiveScores_mem (p : Page) :
    ∀ (l : List Nat) (s : List Rat), responsiveScores p l = .ok s →
      ∀ x ∈ s, x = 0 ∨ x = 1 := by
  intro l
  induction l with
  | nil =>
    intro s hs x hx
    rw [responsiveScores] at hs
    cases hs
    simp at hx
  | cons w ws ih =>
    intro s hs x hx
    rw [responsiveScores] at hs
    cases h1 : p.body_probe w with
    | error err => rw [h1] at hs; cases hs
    | ok ow =>
      rw [h1] at hs
      cases ow with
      | none => exact ih s hs x hx
      | some wq =>
        cases h2 : responsiveScores p ws with
        | error err => rw [h2] at hs; cases hs
        | ok sc =>
          rw [h2] at hs
          cases hs
          rcases List.mem_cons.mp hx with hx | hx
          · by_cases hw : wq > 0 <;> simp [hw] at hx <;> simp [hx]
          · exact ih sc h2 x hx

/-- A list of 0/1 scores has a sum between 0 and its length. -/
lemma sum_le_length_of_mem01 (l : List Rat) (h : ∀ x ∈ l, x = 0 ∨ x = 1) :
    0 ≤ l.sum ∧ l.sum ≤ (l.length : Rat) := by
  induction l with
  | nil => simp
  | cons a as ih =>
    have ha := h a (List.mem_cons_self a as)
    have ihs := ih (fun x hx => h x (List.mem_cons_of_mem _ hx))
    constructor
    · rcases ha with ha | ha <;> simp only [List.sum_cons, ha] <;> linarith [ihs.1]
    · rcases ha with ha | ha <;>
        simp only [List.sum_cons, ha, List.length_cons] <;> push_cast <;>
          linarith [ihs.2]

/-- `_check_responsive` scores in `[0, 1]` (the average of 0/1 scores, or
0 on error / with no body ever found). -/
lemma checkResponsive_score_bound (p : Page) (c : Check) :
    0 ≤ (checkResponsive p c).score ∧ (checkResponsive p c).score ≤ 1 := by
  unfold checkResponsive
  cases h : responsiveScores p c.breakpoints with
  | error err => simp [h]
  | ok s =>
    by_cases hs : s = []
    · simp [h, hs]
    · have hb := sum_le_length_of_mem01 s (responsiveScores_mem p c.breakpoints s h)
      have hlen : 0 < (s.length : Rat) := by
        exact_mod_cast List.length_pos.mpr hs
      simp only [h, hs, if_false]
      constructor
      · exact div_nonneg hb.1 hlen.le
      · exact (div_le_one hlen).mpr hb.2

/-- C1 counterexample: the calculator template's own round-1 check list
(part of a real Task) contains three `click_sequence` descriptors the
engine does not recognise, so both backends return 3 results for its 6
checks — a descriptor/result mismatch — and the `click_sequence`
descriptor itself yields no result under either backend. -/
theorem c1_per_descriptor_counterexample :
    calculatorTemplate.round1.checks.length = 6 ∧
    (runChecks trivialPage calculatorTemplate.round1.checks).length = 3 ∧
    (httpRunChecks trivialSoup calculatorTemplate.round1.checks).length = 3 ∧
    runSingleCheck trivialPage { «type» := "click_sequence", result := "8" } = none ∧
    httpRunSingleCheck trivialSoup { «type» := "click_sequence", result := "8" } = none := by
  refine ⟨rfl, rfl, rfl, rfl, rfl⟩

/-- Generic: a `filterMap` whose function is defined exactly on a
predicate produces one output per passing input. -/
lemma filterMap_length_eq_filter {α β : Type} (f : α → Option β) (g : α → Bool)
    (hfg : ∀ a, (f a).isSome = g a) (l : List α) :
    (l.filterMap f).length = (l.filter g).length := by
  induction l with
  | nil => rfl
  | cons a as ih =>
    by_cases hg : g a
    · have : (f a).isSome = true := by rw [hfg, hg]
      rcases Option.isSome_iff_exists.mp this with ⟨b, hb⟩
      simp [List.filterMap_cons, List.filter_cons, hb, hg, ih]
    · have : f a = none := by
        rcases hf : f a with - | b
        · rfl
        · rw [← hfg a, hf] at hg; simp at hg
      simp [List.filterMap_cons, List.filter_cons, this, hg, ih]

/-- `_run_single_check` returns a result exactly for the four supported
check types. -/
lemma runSingleCheck_isSome (p : Page) (c : Check) :
    (runSingleCheck p c).isSome = supportedCheckType c.«type» := by
  unfold runSingleCheck supportedCheckType
  split_ifs <;> simp_all

/-- `_http_run_single_check` returns a result exactly for the four
supported check types. -/
lemma httpRunSingleCheck_isSome (s : Soup) (c : Check) :
    (httpRunSingleCheck s c).isSome = supportedCheckType c.«type» := by
  unfold httpRunSingleCheck supportedCheckType
  split_ifs <;> simp_all

/-- Every result `_run_single_check` emits has score in `[0, 1]`. -/
lemma runSingleCheck_score (p : Page) (c : Check) (r : CheckResult)
    (h : runSingleCheck p c = some r) : 0 ≤ r.score ∧ r.score ≤ 1 := by
  unfold runSingleCheck at h
  split_ifs at h
  · cases Option.some.inj h
    rcases checkElementExists_score p c with hs | hs <;> rw [hs] <;> norm_num
  · cases Option.some.inj h
    rcases checkButtonExistsLoop_score p c.text c.text with hs | hs <;>
      rw [checkButtonExists, hs] <;> norm_num
  · cases Option.some.inj h
    rcases checkClickInteraction_score p c with hs | hs | hs <;> rw [hs] <;> norm_num
  · cases Option.some.inj h
    exact checkResponsive_score_bound p c

/-- Every result `_http_run_single_check` emits has score in `[0, 1]`,
and the two script-requiring check types score exactly 0.5. -/
lemma httpRunSingleCheck_score (s : Soup) (c : Check) (r : CheckResult)
    (h : httpRunSingleCheck s c = some r) :
    (0 ≤ r.score ∧ r.score ≤ 1) ∧
    ((c.«type» = "click_interaction" ∨ c.«type» = "responsive_check") → r.score = 1/2) := by
  unfold httpRunSingleCheck at h
  split_ifs at h with h1 h2 h3 h4
  · have hne : ∀ hcl : c.«type» = "click_interaction" ∨ c.«type» = "responsive_check",
        False := by
      intro hcl; rcases hcl with hcl | hcl <;> rw [h1] at hcl <;> exact absurd hcl (by decide)
    cases hsc : s.select_count c.selector with
    | error err =>
      rw [hsc] at h; cases Option.some.inj h
      exact ⟨⟨by norm_num, by norm_num⟩, fun hcl => absurd hcl (fun x => hne x)⟩
    | ok n =>
      rw [hsc] at h
      by_cases hn : n ≥ c.min_count <;> simp only [hn, if_true, if_false] at h <;>
        cases Option.some.inj h <;>
          exact ⟨⟨by norm_num, by norm_num⟩, fun hcl => absurd hcl (fun x => hne x)⟩
  · have hne : ∀ hcl : c.«type» = "click_interaction" ∨ c.«type» = "responsive_check",
        False := by
      intro hcl; rcases hcl with hcl | hcl <;> rw [h2] at hcl <;> exact absurd hcl (by decide)
    cases hbt : s.buttons with
    | error err =>
      rw [hbt] at h; cases Option.some.inj h
      exact ⟨⟨by norm_num, by norm_num⟩, fun hcl => absurd hcl (fun x => hne x)⟩
    | ok btns =>
      rw [hbt] at h
      by_cases hf : c.text.any (fun text =>
          btns.any (fun b_text => pyIn text.toLower b_text.toLower)) <;>
        simp only [hf, if_true, if_false] at h <;> cases Option.some.inj h <;>
          exact ⟨⟨by norm_num, by norm_num⟩, fun hcl => absurd hcl (fun x => hne x)⟩
  · cases Option.some.inj h
    exact ⟨⟨by norm_num, by norm_num⟩, fun _ => rfl⟩
  · cases Option.some.inj h
    exact ⟨⟨by norm_num, by norm_num⟩, fun _ => rfl⟩

/-- C1 (amended): for every Check descriptor of a supported type
(`element_exists`, `button_exists`, `click_interaction`,
`responsive_check`), each backend produces exactly one Result with score
in `[0, 1]`, and the two script-requiring types resolve under the static
backend to the fixed neutral score 0.5; a descriptor of any other type
produces no Result under either backend, so each backend emits exactly
one Result per *supported* descriptor of the input list. -/
theorem c1_backend_contract (page : Page) (soup : Soup) (check : Check)
    (checks : List Check) :
    (supportedCheckType check.«type» = true →
      (∃ r, runSingleCheck page check = some r ∧ 0 ≤ r.score ∧ r.score ≤ 1) ∧
      (∃ r, httpRunSingleCheck soup check = some r ∧ 0 ≤ r.score ∧ r.score ≤ 1 ∧
        ((check.«type» = "click_interaction" ∨ check.«type» = "responsive_check") →
          r.score = 1/2))) ∧
    (supportedCheckType check.«type» = false →
      runSingleCheck page check = none ∧ httpRunSingleCheck soup check = none) ∧
    (runChecks page checks).length =
      (checks.filter (fun c => supportedCheckType c.«type»)).length ∧
    (httpRunChecks soup checks).length =
      (checks.filter (fun c => supportedCheckType c.«type»)).length := by
  refine ⟨?_, ?_, ?_, ?_⟩
  · intro hsupp
    constructor
    · have hs : (runSingleCheck page check).isSome = true := by
        rw [runSingleCheck_isSome, hsupp]
      rcases Option.isSome_iff_exists.mp hs with ⟨r, hr⟩
      exact ⟨r, hr, runSingleCheck_score page check r hr⟩
    · have hs : (httpRunSingleCheck soup check).isSome = true := by
        rw [httpRunSingleCheck_isSome, hsupp]
      rcases Option.isSome_iff_exists.mp hs with ⟨r, hr⟩
      have hb := httpRunSingleCheck_score soup check r hr
      exact ⟨r, hr, hb.1.1, hb.1.2, hb.2⟩
  · intro hsupp
    constructor
    · have := runSingleCheck_isSome page check
      rw [hsupp] at this
      exact Option.not_isSome_iff_eq_none.mp (by simp [this])
    · have := httpRunSingleCheck_isSome soup check
      rw [hsupp] at this
      exact Option.not_isSome_iff_eq_none.mp (by simp [this])
  · exact filterMap_length_eq_filter _ _ (runSingleCheck_isSome page) checks
  · exact filterMap_length_eq_filter _ _ (httpRunSingleCheck_isSome soup) checks

/-- Witness for C1 at concrete inputs: an `element_exists` check gets one
in-range result from each backend, and a `click_interaction` check gets
the fixed 0.5 from the static backend. -/
theorem c1_backend_contract_witness :
    ((∃ r, runSingleCheck trivialPage exElemCheck = some r ∧ 0 ≤ r.score ∧ r.score ≤ 1) ∧
      (∃ r, httpRunSingleCheck trivialSoup exElemCheck = some r ∧
        0 ≤ r.score ∧ r.score ≤ 1 ∧
        (exElemCheck.«type» = "click_interaction" ∨
          exElemCheck.«type» = "responsive_check" → r.score = 1/2))) ∧
    (∃ r, httpRunSingleCheck trivialSoup exClickCheck = some r ∧
      0 ≤ r.score ∧ r.score ≤ 1 ∧
      (exClickCheck.«type» = "click_interaction" ∨
        exClickCheck.«type» = "responsive_check" → r.score = 1/2)) := by
  have h1 := (c1_backend_contract trivialPage trivialSoup exElemCheck []).1 (by decide)
  have h2 := ((c1_backend_contract trivialPage trivialSoup exClickCheck []).1 (by decide)).2
  exact ⟨h1, h2⟩

end Pipeline
